import Mathlib

/-!
Verification of the anomaly-detection / correlation / insight-scoring engine
of the booking-metrics platform.

The engine's source lives in `src/analytics/anomaly-detector.service.ts` and
`src/insights/insights.service.ts` (NestJS + Prisma).  The embedding below is a
shallow one:

* Prisma tables become lists of records inside a `Repo` structure; a `findMany`
  with a `where` clause becomes `List.filter`, a `findFirst` becomes `head?` of
  the filtered list (`findFirst` without `orderBy` returns the first matching
  row in storage order).
* JS `Date` values become their epoch-millisecond `Int`; `toISOString` is
  injective on epochs, so string comparisons of ISO timestamps become `Int`
  equality.  `setMinutes(0,0,0)` (truncation to the hour) becomes subtraction
  of the Euclidean remainder modulo an hour.
* JS numbers become `ℚ`.  The only irrational operation, `Math.sqrt` inside
  `calculateStdDev`, is kept in `ℝ` (`calculateStdDev` below); because the
  standard deviation is only ever *compared* against a non-negative deviation,
  the executable detector uses the equivalent squared comparison
  `deviation² > 2.5² · variance` (`anomalyFlag`), and the lemma
  `anomalyFlag_iff_stdDev` proves the two forms equivalent.
* `Math.round` is `round` (both are `⌊x + 1/2⌋`), `Number.prototype.toFixed`
  is `ratToFixed`, string `includes` is `strIncludes` (substring test on the
  character list), and JS `x || default` on possibly-missing strings is
  `jsOrElse` (`undefined` and `""` are both falsy).
-/

/-! ## String helpers -/

/-- Does the second list occur as a prefix of the first argument's suffix?
`listStartsWith needle hay` is true when `hay` starts with `needle`. -/
def listStartsWith : List Char → List Char → Bool
  | [], _ => true
  | _ :: _, [] => false
  | a :: as, b :: bs => a == b && listStartsWith as bs

/-- Substring test on character lists (for JS `String.prototype.includes`). -/
def listContainsSub (needle : List Char) : List Char → Bool
  | [] => needle.isEmpty
  | c :: rest => listStartsWith needle (c :: rest) || listContainsSub needle rest

/-- JS `s.includes(sub)`. -/
def strIncludes (s sub : String) : Bool := listContainsSub sub.data s.data

/-- JS `x || d` for an optional string context field: `undefined` and the empty
string are falsy and fall back to the default. -/
def jsOrElse (o : Option String) (d : String) : String :=
  match o with
  | some s => if s = "" then d else s
  | none => d

/-- JS `q.toFixed(prec)`: decimal rendering of a rational with `prec` digits
after the point, rounding ties as `⌊x·10^prec + 1/2⌋` does. -/
def ratToFixed (prec : Nat) (q : ℚ) : String :=
  let scaled : Int := round (q * (10:ℚ)^prec)
  let sign := if scaled < 0 then "-" else ""
  let mag := scaled.natAbs
  if prec = 0 then sign ++ toString mag
  else
    let ip := mag / 10^prec
    let fp := mag % 10^prec
    let fpStr := toString fp
    let pad := String.mk (List.replicate (prec - fpStr.length) '0')
    sign ++ toString ip ++ "." ++ pad ++ fpStr

/-! ## Data model

Three hourly Prisma tables (`pageViewsHourly`, `userActionsHourly`,
`performanceHourly`), their derived anomaly / correlation records, and the
business-insight output record.  Field names follow the Prisma schema. -/

/-- One row of the `pageViewsHourly` table. -/
structure PageViewsRow where
  timestamp : Int
  page : String
  pageCategory : String
  deviceType : String
  referrer : String
  region : String
  viewCount : ℚ
deriving DecidableEq

/-- One row of the `userActionsHourly` table. -/
structure UserActionsRow where
  timestamp : Int
  page : String
  pageCategory : String
  deviceType : String
  referrer : String
  region : String
  avgSessionDuration : ℚ
  bounceRate : ℚ
  conversionRate : ℚ
  conversionCount : ℚ
deriving DecidableEq

/-- One row of the `performanceHourly` table (no referrer dimension). -/
structure PerformanceRow where
  timestamp : Int
  page : String
  pageCategory : String
  deviceType : String
  region : String
  avgLoadTime : ℚ
  errorRate : ℚ
deriving DecidableEq

/-- The repository contents read by one invocation of the engine. -/
structure Repo where
  pageViewsHourly : List PageViewsRow
  userActionsHourly : List UserActionsRow
  performanceHourly : List PerformanceRow
deriving DecidableEq

/-- The dimensional context copied from the flagged recent row onto an anomaly
(`deviceType` / `region` / `referrer` / `pageCategory`; `referrer` is absent on
performance rows, hence optional). -/
structure AnomalyContext where
  deviceType : Option String
  region : Option String
  referrer : Option String
  pageCategory : Option String
deriving DecidableEq

/-- `AnomalyDetectionResult` from `insight.interface.ts`.  The source stores
`baselineStdDev = √baselineVariance`; to keep the record computable we store
the variance (its square); `calculateStdDev` below recovers the real value. -/
structure AnomalyDetectionResult where
  page : String
  metricType : String
  metric : String
  currentValue : ℚ
  baselineMean : ℚ
  baselineVariance : ℚ
  percentageChange : ℚ
  timestamp : Int
  context : AnomalyContext
deriving DecidableEq

/-- A page / device / referrer / region combination for granular detection
(unset fields are unconstrained filters). -/
structure Combo where
  page : String
  deviceType : Option String
  referrer : Option String
  region : Option String
deriving DecidableEq

/-- One correlated metric attached to a primary anomaly. -/
structure CorrelatedMetric where
  metric : String
  value : ℚ
  change : ℚ
  correlation : String
deriving DecidableEq

/-- `CorrelationResult` from `insight.interface.ts`. -/
structure CorrelationResult where
  primaryAnomaly : AnomalyDetectionResult
  correlatedMetrics : List CorrelatedMetric
deriving DecidableEq

/-- Return value of `getConversionDataForPage`. -/
structure ConversionData where
  conversionRate : ℚ
  baselineRate : ℚ
deriving DecidableEq

/-- Return value of `getBounceRateForPage`. -/
structure BounceData where
  bounceRate : ℚ
  baselineBounceRate : ℚ
deriving DecidableEq

/-- The optional dimensional tags a generated insight carries. -/
structure InsightContext where
  referrer : Option String := none
  region : Option String := none
  deviceType : Option String := none
  bounceRateIncrease : Option String := none
deriving DecidableEq

/-- `BusinessInsight` from `insight.interface.ts`; `detectedAt` is the ISO
string of the anomalous hour in the source, modelled by its epoch (the ISO
rendering is injective, and the only use of `detectedAt` is equality
comparison and date arithmetic). -/
structure BusinessInsight where
  type : String
  metric : String
  page : String
  change : String
  businessInsight : String
  suggestedAction : String
  impactScore : Int
  detectedAt : Int
  context : InsightContext
deriving DecidableEq

/-- The controller's `InsightsResponseDto`. -/
structure InsightsResponse where
  success : Bool
  timestamp : Int
  cachedUntil : Int
  insights : List BusinessInsight
deriving DecidableEq

/-- One hour in milliseconds (`60 * 60 * 1000`). -/
def hourMs : Int := 60 * 60 * 1000

/-! ## StatisticsEngine (`calculateMean` / `calculateStdDev`) -/

/-- `calculateMean` (anomaly-detector.service.ts lines 507-510): arithmetic
mean, `0` on the empty list. -/
def calculateMean (values : List ℚ) : ℚ :=
  if values.length = 0 then 0 else values.sum / values.length

/-- The population variance computed inside `calculateStdDev`
(anomaly-detector.service.ts lines 512-517): mean squared deviation, `0` on
the empty list.  The source returns `Math.sqrt` of this. -/
def calculateVariance (values : List ℚ) (mean : ℚ) : ℚ :=
  if values.length = 0 then 0
  else ((values.map (fun v => (v - mean)^2)).sum) / values.length

/-- `calculateStdDev` (anomaly-detector.service.ts lines 512-517):
`√variance`, as a real number. -/
noncomputable def calculateStdDev (values : List ℚ) (mean : ℚ) : ℝ :=
  Real.sqrt (calculateVariance values mean)

/-- The anomaly test of lines 333-338 (and 143-147, 401-405):
`deviation > 2.5 · stdDev && baselineMean > 0`, written with the squared
threshold so that it stays in `ℚ`; `anomalyFlag_iff_stdDev` proves this is the
same test as the source's. -/
def anomalyFlag (baselineMean baselineVariance value : ℚ) : Bool :=
  decide ((value - baselineMean)^2 > (5/2)^2 * baselineVariance) &&
  decide (baselineMean > 0)

/-! ## AnomalyDetector -/

/-- The baseline query of the detectors: the rows matching the non-temporal
`where` clause with `baselineStart ≤ timestamp < baselineEnd`. -/
def coreBaseline {ρ : Type} (rows : List ρ) (tsOf : ρ → Int) (rowMatch : ρ → Bool)
    (baselineStart baselineEnd : Int) : List ρ :=
  rows.filter (fun r =>
    rowMatch r && decide (baselineStart ≤ tsOf r) && decide (tsOf r < baselineEnd))

/-- The recent query of the detectors: `timestamp: { gte: recentStart }` —
note the absence of an upper bound in the source. -/
def coreRecent {ρ : Type} (rows : List ρ) (tsOf : ρ → Int) (rowMatch : ρ → Bool)
    (recentStart : Int) : List ρ :=
  rows.filter (fun r => rowMatch r && decide (recentStart ≤ tsOf r))

/-- The detectors' `baselineMean` over the baseline window. -/
def coreMean {ρ : Type} (rows : List ρ) (tsOf : ρ → Int) (rowMatch : ρ → Bool)
    (f : ρ → ℚ) (baselineStart baselineEnd : Int) : ℚ :=
  calculateMean ((coreBaseline rows tsOf rowMatch baselineStart baselineEnd).map f)

/-- The detectors' baseline variance (whose square root is the source's
`baselineStdDev`). -/
def coreVar {ρ : Type} (rows : List ρ) (tsOf : ρ → Int) (rowMatch : ρ → Bool)
    (f : ρ → ℚ) (baselineStart baselineEnd : Int) : ℚ :=
  calculateVariance ((coreBaseline rows tsOf rowMatch baselineStart baselineEnd).map f)
    (coreMean rows tsOf rowMatch f baselineStart baselineEnd)

/-- The anomaly record pushed for a flagged recent row. -/
def mkAnomaly {ρ : Type} (pageOf : ρ → String) (ctxOf : ρ → AnomalyContext)
    (f : ρ → ℚ) (baselineMean baselineVariance : ℚ)
    (metricType metricName : String) (recent : ρ) (tsOf : ρ → Int) :
    AnomalyDetectionResult :=
  { page := pageOf recent
    metricType := metricType
    metric := metricName
    currentValue := f recent
    baselineMean := baselineMean
    baselineVariance := baselineVariance
    percentageChange := (f recent - baselineMean) / baselineMean * 100
    timestamp := tsOf recent
    context := ctxOf recent }

/-- The shared body of `detectTrafficAnomalies`, `detectMetricAnomaly` and
`detectTrafficAnomaliesGranular` (they are near-identical in the source):
filter a baseline window and a *lower-bounded-only* recent window out of
`rows`, skip if the baseline is empty, and emit an anomaly record for every
recent row passing `anomalyFlag`.  `rowMatch` is the non-temporal part of the
Prisma `where` clause, and `tsOf` / `pageOf` / `ctxOf` / `f` project the
row's fields.  (The source binds the mean and variance once with `let`; the
shared sub-definitions here are the same values.) -/
def detectCore {ρ : Type} (rows : List ρ) (tsOf : ρ → Int) (pageOf : ρ → String)
    (ctxOf : ρ → AnomalyContext) (f : ρ → ℚ) (rowMatch : ρ → Bool)
    (recentStart baselineStart baselineEnd : Int)
    (metricType metricName : String) : List AnomalyDetectionResult :=
  if (coreBaseline rows tsOf rowMatch baselineStart baselineEnd).length = 0 then []
  else
    (coreRecent rows tsOf rowMatch recentStart).filterMap (fun recent =>
      if anomalyFlag (coreMean rows tsOf rowMatch f baselineStart baselineEnd)
          (coreVar rows tsOf rowMatch f baselineStart baselineEnd) (f recent) then
        some (mkAnomaly pageOf ctxOf f
          (coreMean rows tsOf rowMatch f baselineStart baselineEnd)
          (coreVar rows tsOf rowMatch f baselineStart baselineEnd)
          metricType metricName recent tsOf)
      else none)

/-- The non-temporal `where` clause of the page-aggregate detectors:
`{ page }`. -/
def pvMatch (page : String) : PageViewsRow → Bool := fun r => r.page == page

/-- Page filter on the `userActionsHourly` table. -/
def uaMatch (page : String) : UserActionsRow → Bool := fun r => r.page == page

/-- Page filter on the `performanceHourly` table. -/
def perfMatch (page : String) : PerformanceRow → Bool := fun r => r.page == page

/-- The source's `baselineStdDev` for a detector invocation:
`√(coreVar …)`. -/
noncomputable def coreStdDev {ρ : Type} (rows : List ρ) (tsOf : ρ → Int)
    (rowMatch : ρ → Bool) (f : ρ → ℚ) (baselineStart baselineEnd : Int) : ℝ :=
  calculateStdDev ((coreBaseline rows tsOf rowMatch baselineStart baselineEnd).map f)
    (coreMean rows tsOf rowMatch f baselineStart baselineEnd)

/-- Context copied from a page-views row. -/
def pvContext (r : PageViewsRow) : AnomalyContext :=
  { deviceType := some r.deviceType, region := some r.region,
    referrer := some r.referrer, pageCategory := some r.pageCategory }

/-- Context copied from a user-actions row. -/
def uaContext (r : UserActionsRow) : AnomalyContext :=
  { deviceType := some r.deviceType, region := some r.region,
    referrer := some r.referrer, pageCategory := some r.pageCategory }

/-- Context copied from a performance row (`recent.referrer` is `undefined`
on this table). -/
def perfContext (r : PerformanceRow) : AnomalyContext :=
  { deviceType := some r.deviceType, region := some r.region,
    referrer := none, pageCategory := some r.pageCategory }

/-- `detectTrafficAnomalies` (lines 106-171): page-view anomalies for one
page, metric `viewCount`. -/
def detectTrafficAnomalies (repo : Repo) (page : String)
    (recentStart baselineStart baselineEnd : Int) : List AnomalyDetectionResult :=
  detectCore repo.pageViewsHourly (·.timestamp) (·.page) pvContext (·.viewCount)
    (pvMatch page) recentStart baselineStart baselineEnd
    "Traffic" "PageViews"

/-- The `userActionsHourly` branch of the generic `detectMetricAnomaly`
(lines 269-361); the source dispatches on the metric field name
(`Session` / `bounce` / `conversion`), which here is the choice of this
function over `detectMetricAnomalyPerf`. -/
def detectMetricAnomalyUA (repo : Repo) (page : String)
    (recentStart baselineStart baselineEnd : Int)
    (metricType metricName : String) (f : UserActionsRow → ℚ) :
    List AnomalyDetectionResult :=
  detectCore repo.userActionsHourly (·.timestamp) (·.page) uaContext f
    (uaMatch page) recentStart baselineStart baselineEnd
    metricType metricName

/-- The `performanceHourly` branch of `detectMetricAnomaly`. -/
def detectMetricAnomalyPerf (repo : Repo) (page : String)
    (recentStart baselineStart baselineEnd : Int)
    (metricType metricName : String) (f : PerformanceRow → ℚ) :
    List AnomalyDetectionResult :=
  detectCore repo.performanceHourly (·.timestamp) (·.page) perfContext f
    (perfMatch page) recentStart baselineStart baselineEnd
    metricType metricName

/-- `detectEngagementAnomalies` (lines 176-224): session duration, bounce
rate and conversion rate for one page. -/
def detectEngagementAnomalies (repo : Repo) (page : String)
    (recentStart baselineStart baselineEnd : Int) : List AnomalyDetectionResult :=
  detectMetricAnomalyUA repo page recentStart baselineStart baselineEnd
    "UserActions" "Session Duration" (·.avgSessionDuration) ++
  detectMetricAnomalyUA repo page recentStart baselineStart baselineEnd
    "Engagement" "Bounce Rate" (·.bounceRate) ++
  detectMetricAnomalyUA repo page recentStart baselineStart baselineEnd
    "Conversion" "Conversion Rate" (·.conversionRate)

/-- `detectPerformanceAnomalies` (lines 229-264): load time and error rate
for one page. -/
def detectPerformanceAnomalies (repo : Repo) (page : String)
    (recentStart baselineStart baselineEnd : Int) : List AnomalyDetectionResult :=
  detectMetricAnomalyPerf repo page recentStart baselineStart baselineEnd
    "Performance" "Load Time" (·.avgLoadTime) ++
  detectMetricAnomalyPerf repo page recentStart baselineStart baselineEnd
    "Performance" "Error Rate" (·.errorRate)

/-- First-occurrence deduplication of a string list (Prisma
`distinct: ['page']`). -/
def dedupKeep : List String → List String → List String
  | [], _ => []
  | p :: rest, seen =>
    if p ∈ seen then dedupKeep rest seen else p :: dedupKeep rest (p :: seen)

/-- `getUniquePages` (lines 519-525): the distinct pages of the
`pageViewsHourly` table. -/
def getUniquePages (repo : Repo) : List String :=
  dedupKeep (repo.pageViewsHourly.map (·.page)) []

/-- `detectAnomalies` (lines 17-58): the page-aggregate pass over all pages
and all six metrics, with the windows computed from `now`. -/
def detectAnomalies (repo : Repo) (now : Int) : List AnomalyDetectionResult :=
  let recentStart := now - 6 * hourMs
  let baselineStart := now - 30 * hourMs
  let baselineEnd := now - 6 * hourMs
  (getUniquePages repo).flatMap (fun page =>
    detectTrafficAnomalies repo page recentStart baselineStart baselineEnd ++
    detectEngagementAnomalies repo page recentStart baselineStart baselineEnd ++
    detectPerformanceAnomalies repo page recentStart baselineStart baselineEnd)

/-- The optional-dimension `where` clause of the granular traffic pass
(lines 372-381): unset combo fields are unconstrained (`if (combo.x)
where.x = combo.x`). -/
def comboMatchesPV (combo : Combo) (r : PageViewsRow) : Bool :=
  r.page == combo.page &&
  (match combo.deviceType with | some d => r.deviceType == d | none => true) &&
  (match combo.referrer with | some rf => r.referrer == rf | none => true) &&
  (match combo.region with | some rg => r.region == rg | none => true)

/-- `detectTrafficAnomaliesGranular` (lines 366-427). -/
def detectTrafficAnomaliesGranular (repo : Repo) (combo : Combo)
    (recentStart baselineStart baselineEnd : Int) : List AnomalyDetectionResult :=
  detectCore repo.pageViewsHourly (·.timestamp) (·.page) pvContext (·.viewCount)
    (comboMatchesPV combo) recentStart baselineStart baselineEnd
    "Traffic" "PageViews"

/-- `detectEngagementAnomaliesGranular` (lines 429-438): a stub in the source
("For brevity, focusing on aggregated detection first") returning no
anomalies. -/
def detectEngagementAnomaliesGranular (_repo : Repo) (_combo : Combo)
    (_recentStart _baselineStart _baselineEnd : Int) : List AnomalyDetectionResult :=
  []

/-- `detectPerformanceAnomaliesGranular` (lines 440-448): a stub returning no
anomalies. -/
def detectPerformanceAnomaliesGranular (_repo : Repo) (_combo : Combo)
    (_recentStart _baselineStart _baselineEnd : Int) : List AnomalyDetectionResult :=
  []

/-- `getUniqueCombinations` (lines 527-534): the source returns page-level
combinations only ("For now, return page-level combinations"). -/
def getUniqueCombinations (repo : Repo) : List Combo :=
  (getUniquePages repo).map (fun page =>
    { page := page, deviceType := none, referrer := none, region := none })

/-- `detectGranularAnomalies` (lines 63-101). -/
def detectGranularAnomalies (repo : Repo) (now : Int) : List AnomalyDetectionResult :=
  let recentStart := now - 6 * hourMs
  let baselineStart := now - 30 * hourMs
  let baselineEnd := now - 6 * hourMs
  (getUniqueCombinations repo).flatMap (fun combo =>
    detectTrafficAnomaliesGranular repo combo recentStart baselineStart baselineEnd ++
    detectEngagementAnomaliesGranular repo combo recentStart baselineStart baselineEnd ++
    detectPerformanceAnomaliesGranular repo combo recentStart baselineStart baselineEnd)

/-! ## CorrelationAnalyzer -/

/-- JS `setMinutes(0,0,0)`: truncate an epoch to the start of its hour. -/
def hourFloor (ts : Int) : Int := ts - ts % hourMs

/-- `getConversionDataForPage` (lines 536-577): the first user-actions row of
the anomaly's hour bucket, plus the page's conversion-rate baseline over
`[ts − 30h, ts − 6h)` (falling back to the recent row's own value when that
window is empty). -/
def getConversionDataForPage (repo : Repo) (page : String) (timestamp : Int) :
    Option ConversionData :=
  let hourStart := hourFloor timestamp
  let hourEnd := hourStart + hourMs
  match (repo.userActionsHourly.filter (fun r =>
      r.page == page && decide (hourStart ≤ r.timestamp) &&
      decide (r.timestamp < hourEnd))).head? with
  | none => none
  | some recent =>
    let baselineStart := timestamp - 30 * hourMs
    let baselineEnd := timestamp - 6 * hourMs
    let baseline := repo.userActionsHourly.filter (fun r =>
      r.page == page && decide (baselineStart ≤ r.timestamp) &&
      decide (r.timestamp < baselineEnd))
    let baselineRate :=
      if baseline.length > 0 then
        (baseline.map (·.conversionRate)).sum / baseline.length
      else recent.conversionRate
    some { conversionRate := recent.conversionRate, baselineRate := baselineRate }

/-- `getBounceRateForPage` (lines 579-620): same shape for the bounce rate. -/
def getBounceRateForPage (repo : Repo) (page : String) (timestamp : Int) :
    Option BounceData :=
  let hourStart := hourFloor timestamp
  let hourEnd := hourStart + hourMs
  match (repo.userActionsHourly.filter (fun r =>
      r.page == page && decide (hourStart ≤ r.timestamp) &&
      decide (r.timestamp < hourEnd))).head? with
  | none => none
  | some recent =>
    let baselineStart := timestamp - 30 * hourMs
    let baselineEnd := timestamp - 6 * hourMs
    let baseline := repo.userActionsHourly.filter (fun r =>
      r.page == page && decide (baselineStart ≤ r.timestamp) &&
      decide (r.timestamp < baselineEnd))
    let baselineBounceRate :=
      if baseline.length > 0 then
        (baseline.map (·.bounceRate)).sum / baseline.length
      else recent.bounceRate
    some { bounceRate := recent.bounceRate, baselineBounceRate := baselineBounceRate }

/-- The first cross-table check of `analyzeCorrelations` (lines 462-475):
a Traffic increase whose page's conversion rate dropped more than 10%
below its own baseline. -/
def trafficCorrFor (repo : Repo) (anomaly : AnomalyDetectionResult) :
    List CorrelatedMetric :=
  if anomaly.metricType = "Traffic" ∧ anomaly.percentageChange > 0 then
    match getConversionDataForPage repo anomaly.page anomaly.timestamp with
    | some cd =>
      if cd.conversionRate < cd.baselineRate * (9/10) then
        [{ metric := "Conversion Rate", value := cd.conversionRate,
           change := (cd.conversionRate - cd.baselineRate) / cd.baselineRate * 100,
           correlation := "traffic_up_conversions_down" }]
      else []
    | none => []
  else []

/-- The second cross-table check of `analyzeCorrelations` (lines 478-491):
a Load Time increase whose page's bounce rate rose more than 10% above its
own baseline. -/
def bounceCorrFor (repo : Repo) (anomaly : AnomalyDetectionResult) :
    List CorrelatedMetric :=
  if anomaly.metricType = "Performance" ∧ anomaly.metric = "Load Time" ∧
      anomaly.percentageChange > 0 then
    match getBounceRateForPage repo anomaly.page anomaly.timestamp with
    | some bd =>
      if bd.bounceRate > bd.baselineBounceRate * (11/10) then
        [{ metric := "Bounce Rate", value := bd.bounceRate,
           change := (bd.bounceRate - bd.baselineBounceRate) / bd.baselineBounceRate * 100,
           correlation := "load_time_up_bounce_rate_up" }]
      else []
    | none => []
  else []

/-- The per-anomaly loop body of `analyzeCorrelations` (lines 458-491): the
two hard-coded cross-metric checks, pushed in source order. -/
def correlatedMetricsFor (repo : Repo) (anomaly : AnomalyDetectionResult) :
    List CorrelatedMetric :=
  trafficCorrFor repo anomaly ++ bounceCorrFor repo anomaly

/-- `analyzeCorrelations` (lines 453-502): anomalies with at least one
correlated metric, in input order. -/
def analyzeCorrelations (repo : Repo) (anomalies : List AnomalyDetectionResult) :
    List CorrelationResult :=
  anomalies.filterMap (fun anomaly =>
    let correlated := correlatedMetricsFor repo anomaly
    if correlated.length > 0 then
      some { primaryAnomaly := anomaly, correlatedMetrics := correlated }
    else none)

/-! ## InsightGenerator (insights.service.ts) -/

/-- Lines 62-63: the formatted change string
`(pct >= 0 ? '+' : '') + pct.toFixed(0) + '%'` (`toFixed` renders the minus
sign of negative values itself). -/
def formatChange (pct : ℚ) : String :=
  (if pct ≥ 0 then "+" else "") ++ ratToFixed 0 pct ++ "%"

/-- `correlation?.correlatedMetrics?.find(m => m.correlation === tag)`. -/
def findCorrTag (c : Option CorrelationResult) (tag : String) :
    Option CorrelatedMetric :=
  match c with
  | some cr => cr.correlatedMetrics.find? (fun m => m.correlation == tag)
  | none => none

/-- `correlation?.correlatedMetrics?.some(m => m.correlation === tag)`. -/
def hasCorrTag (c : Option CorrelationResult) (tag : String) : Bool :=
  (findCorrTag c tag).isSome

/-- `generateTrafficInsight` (lines 86-134). -/
def generateTrafficInsight (anomaly : AnomalyDetectionResult) (change : String)
    (correlation : Option CorrelationResult) : BusinessInsight :=
  let referrer := jsOrElse anomaly.context.referrer "Unknown"
  let region := jsOrElse anomaly.context.region "All regions"
  let base := "Traffic " ++ (if anomaly.percentageChange > 0 then "surge" else "drop") ++
    " of " ++ change ++ " detected on " ++ anomaly.page ++ ". "
  let main :=
    if anomaly.percentageChange > 0 then
      if referrer = "Instagram" then
        ("Organic traffic spike from Instagram campaign — likely viral post engagement. Primary traffic from " ++ region ++ ".",
         "Increase ad spend for " ++ region ++ " audiences. Create follow-up content to maintain momentum.")
      else if referrer = "Google" then
        ("Significant increase in organic search traffic. Page may have improved search ranking.",
         "Analyze SEO performance, ensure content quality, and consider increasing paid search budget.")
      else
        ("Traffic increase from " ++ referrer ++ ". Monitor conversion rates to ensure quality traffic.",
         "Verify campaign performance and ensure sufficient inventory for increased demand.")
    else
      ("Significant drop in traffic from " ++ referrer ++ ". Page may have lost visibility or interest has declined.",
       "Audit SEO performance, check for technical issues, and consider refreshing content or running paid campaigns.")
  let withCorr :=
    if anomaly.percentageChange > 0 ∧
        hasCorrTag correlation "traffic_up_conversions_down" = true then
      (main.1 ++ " However, conversion rate has dropped, indicating potential UX or pricing issues.",
       main.2 ++ " Review pricing competitiveness and checkout flow.")
    else main
  { type := if anomaly.percentageChange > 0 then "Traffic Surge" else "Traffic Drop"
    metric := "PageViews"
    page := anomaly.page
    change := change
    businessInsight := base ++ withCorr.1
    suggestedAction := withCorr.2
    impactScore := 0
    detectedAt := anomaly.timestamp
    context := { referrer := some referrer, region := some region,
                 deviceType := anomaly.context.deviceType } }

/-- `generatePerformanceInsight` (lines 139-179).  When no bounce-rate
correlation is present, the source's
`...find(...)?.change?.toFixed(0) + '%'` evaluates to the string
`"undefined%"`, reproduced here. -/
def generatePerformanceInsight (anomaly : AnomalyDetectionResult) (change : String)
    (correlation : Option CorrelationResult) : BusinessInsight :=
  let deviceType := jsOrElse anomaly.context.deviceType "All devices"
  let loadTimeSeconds := ratToFixed 1 (anomaly.currentValue / 1000)
  let base := "Performance degradation detected: " ++ deviceType ++
    " load time increased by " ++ change ++ " (now " ++ loadTimeSeconds ++ "s). "
  let main :=
    if deviceType = "Mobile" then
      ("Mobile load time significantly increased. Images may be unoptimized affecting conversion.",
       "Optimize images for mobile (WebP format, lazy loading), check CDN performance, and review recent code deployments.")
    else
      ("Load time increase may be impacting user experience and conversions.",
       "Check server performance, optimize assets, review CDN configuration, and investigate recent deployments.")
  let withCorr :=
    match findCorrTag correlation "load_time_up_bounce_rate_up" with
    | some m =>
      (main.1 ++ " Bounce rate increased by " ++ ratToFixed 0 m.change ++
         "% in correlation, confirming performance impact.",
       main.2 ++ " Priority: Fix performance issues immediately to prevent further engagement loss.")
    | none => main
  { type := "Performance Issue"
    metric := "Load Time"
    page := anomaly.page
    change := change
    businessInsight := base ++ withCorr.1
    suggestedAction := withCorr.2
    impactScore := 0
    detectedAt := anomaly.timestamp
    context := { deviceType := some deviceType,
                 bounceRateIncrease := some
                   ((match findCorrTag correlation "load_time_up_bounce_rate_up" with
                     | some m => ratToFixed 0 m.change
                     | none => "undefined") ++ "%") } }

/-- `generateEngagementInsight` (lines 184-217). -/
def generateEngagementInsight (anomaly : AnomalyDetectionResult) (change : String)
    (_correlation : Option CorrelationResult) : BusinessInsight :=
  let page := anomaly.page
  let sessionDurationMinutes := ratToFixed 1 (anomaly.currentValue / 60)
  let base := "Engagement drop detected: Average session duration decreased by " ++
    change ++ " (now " ++ sessionDurationMinutes ++ " minutes). "
  let main :=
    if strIncludes page "checkout" then
      ("Users dropping off during checkout. Possible payment gateway issue or confusing checkout flow.",
       "Immediately verify Razorpay integration, check error logs, and consider A/B testing a simplified checkout process.")
    else
      ("Users spending less time on page. Content may not be engaging or page may have usability issues.",
       "Review page content, check for broken elements, improve CTAs, and analyze user flow.")
  { type := "Engagement Drop"
    metric := "Session Duration"
    page := page
    change := change
    businessInsight := base ++ main.1
    suggestedAction := main.2
    impactScore := 0
    detectedAt := anomaly.timestamp
    context := { deviceType := anomaly.context.deviceType,
                 region := anomaly.context.region } }

/-- `generateConversionInsight` (lines 222-256). -/
def generateConversionInsight (anomaly : AnomalyDetectionResult) (change : String)
    (correlation : Option CorrelationResult) : BusinessInsight :=
  let page := anomaly.page
  let conversionRate := ratToFixed 2 anomaly.currentValue
  let base := "Conversion rate dropped by " ++ change ++ " (now " ++ conversionRate ++ "%). "
  let main :=
    if hasCorrTag correlation "traffic_up_conversions_down" = true then
      ("High traffic but low conversions. Possible pricing, availability, or trust issues.",
       "Review package pricing competitiveness, ensure availability is shown correctly, and add more customer reviews/testimonials.")
    else
      ("Conversion rate decline may indicate pricing issues, lack of trust, or technical problems.",
       "Review pricing strategy, add trust signals (reviews, badges), verify booking flow, and check for errors.")
  { type := "Conversion Drop"
    metric := "Conversion Rate"
    page := page
    change := change
    businessInsight := base ++ main.1
    suggestedAction := main.2
    impactScore := 0
    detectedAt := anomaly.timestamp
    context := { referrer := anomaly.context.referrer,
                 deviceType := anomaly.context.deviceType } }

/-- `generateBounceRateInsight` (lines 261-287). -/
def generateBounceRateInsight (anomaly : AnomalyDetectionResult) (change : String)
    (_correlation : Option CorrelationResult) : BusinessInsight :=
  let bounceRate := ratToFixed 1 anomaly.currentValue
  let base := "Bounce rate increased by " ++ change ++ " (now " ++ bounceRate ++ "%). "
  { type := "Engagement Drop"
    metric := "Bounce Rate"
    page := anomaly.page
    change := change
    businessInsight := base ++
      "Users leaving page quickly may indicate content mismatch, slow load times, or poor user experience."
    suggestedAction :=
      "Improve page content relevance, optimize load times, enhance mobile experience, and review landing page design."
    impactScore := 0
    detectedAt := anomaly.timestamp
    context := { deviceType := anomaly.context.deviceType } }

/-- `generateErrorRateInsight` (lines 292-319). -/
def generateErrorRateInsight (anomaly : AnomalyDetectionResult) (change : String)
    (_correlation : Option CorrelationResult) : BusinessInsight :=
  let errorRate := ratToFixed 2 anomaly.currentValue
  let base := "Error rate increased by " ++ change ++ " (now " ++ errorRate ++ "%). "
  { type := "Performance Issue"
    metric := "Error Rate"
    page := anomaly.page
    change := change
    businessInsight := base ++
      "Increased error rate indicates technical issues that may be preventing bookings and damaging user trust."
    suggestedAction :=
      "Immediately check server logs, verify API endpoints, test payment gateway, and review recent deployments. Consider rolling back if recent changes were made."
    impactScore := 0
    detectedAt := anomaly.timestamp
    context := { deviceType := anomaly.context.deviceType,
                 region := anomaly.context.region } }

/-- `generateInsightForAnomaly` (lines 53-81): the (metricType, metric)
dispatch; unmapped pairs yield no insight. -/
def generateInsightForAnomaly (anomaly : AnomalyDetectionResult)
    (correlations : List CorrelationResult) : Option BusinessInsight :=
  let correlation := correlations.find? (fun c =>
    c.primaryAnomaly.page == anomaly.page &&
    c.primaryAnomaly.timestamp == anomaly.timestamp)
  let change := formatChange anomaly.percentageChange
  if anomaly.metricType = "Traffic" ∧ anomaly.metric = "PageViews" then
    some (generateTrafficInsight anomaly change correlation)
  else if anomaly.metricType = "Performance" ∧ anomaly.metric = "Load Time" then
    some (generatePerformanceInsight anomaly change correlation)
  else if anomaly.metricType = "UserActions" ∧ anomaly.metric = "Session Duration" then
    some (generateEngagementInsight anomaly change correlation)
  else if anomaly.metricType = "Conversion" ∧ anomaly.metric = "Conversion Rate" then
    some (generateConversionInsight anomaly change correlation)
  else if anomaly.metricType = "Engagement" ∧ anomaly.metric = "Bounce Rate" then
    some (generateBounceRateInsight anomaly change correlation)
  else if anomaly.metricType = "Performance" ∧ anomaly.metric = "Error Rate" then
    some (generateErrorRateInsight anomaly change correlation)
  else none

/-! ## ImpactScorer, deduplication, ranking -/

/-- `calculateImpactScore` (lines 324-365).  The anomaly lookup compares the
page and the ISO timestamp (epoch equality here); a missing match scores a
flat 50; `Math.round` is `round` (both are `⌊x + 1/2⌋`). -/
def calculateImpactScore (insight : BusinessInsight)
    (allAnomalies : List AnomalyDetectionResult) (now : Int) : Int :=
  match allAnomalies.find? (fun a =>
      a.page == insight.page && a.timestamp == insight.detectedAt) with
  | none => 50
  | some anomaly =>
    let magnitudeScore : ℚ := min (|anomaly.percentageChange| / 5) 100
    let criticalityScore : ℚ :=
      if strIncludes insight.type "Conversion" || strIncludes insight.type "Error" then 90
      else if strIncludes insight.type "Performance" || strIncludes insight.type "Engagement" then 70
      else if strIncludes insight.type "Traffic" then 60
      else 50
    let hoursAgo : ℚ := ((now - insight.detectedAt : Int) : ℚ) / ((1000 * 60 * 60 : Int) : ℚ)
    let recencyScore : ℚ := max 0 (100 - hoursAgo * 10)
    round (magnitudeScore * (3/10) + criticalityScore * (4/10) + recencyScore * (3/10))

/-- The dedup key of line 375: the dash-joined string
`page + "-" + metric + "-" + epoch`. -/
def anomalyKey (a : AnomalyDetectionResult) : String :=
  a.page ++ "-" ++ a.metric ++ "-" ++ toString a.timestamp

/-- The loop of `deduplicateAnomalies` (lines 370-383), with the `seen` set
as a list of keys. -/
def dedupGo : List AnomalyDetectionResult → List String → List AnomalyDetectionResult
  | [], _ => []
  | a :: rest, seen =>
    if anomalyKey a ∈ seen then dedupGo rest seen
    else a :: dedupGo rest (anomalyKey a :: seen)

/-- `deduplicateAnomalies` (lines 370-383): first occurrence per key wins. -/
def deduplicateAnomalies (anomalies : List AnomalyDetectionResult) :
    List AnomalyDetectionResult :=
  dedupGo anomalies []

/-- The sort order of line 44 (`(a, b) => b.impactScore - a.impactScore`):
descending impact score. -/
def scoreGE (a b : BusinessInsight) : Prop := b.impactScore ≤ a.impactScore

instance : DecidableRel scoreGE :=
  fun a b => inferInstanceAs (Decidable (b.impactScore ≤ a.impactScore))

instance : IsTotal BusinessInsight scoreGE :=
  ⟨fun a b => le_total b.impactScore a.impactScore⟩

instance : IsTrans BusinessInsight scoreGE :=
  ⟨fun _ _ _ h1 h2 => le_trans h2 h1⟩

/-- Lines 39-47 of `generateBusinessInsights`: score every insight, sort by
impact score descending (modelled by a stable insertion sort) and return the
top 5 (`slice(0, 5)`). -/
def scoreSortSlice (insights : List BusinessInsight)
    (uniqueAnomalies : List AnomalyDetectionResult) (now : Int) : List BusinessInsight :=
  (List.insertionSort scoreGE
    (insights.map (fun insight =>
      { insight with impactScore := calculateImpactScore insight uniqueAnomalies now }))).take 5

/-- `generateBusinessInsights` (lines 16-48): both detection passes, merged
and deduplicated, correlation analysis, per-anomaly insight generation
(dropping anomalies with no mapped insight), scoring, ranking, top 5. -/
def generateBusinessInsights (repo : Repo) (now : Int) : List BusinessInsight :=
  let aggregatedAnomalies := detectAnomalies repo now
  let granularAnomalies := detectGranularAnomalies repo now
  let allAnomalies := aggregatedAnomalies ++ granularAnomalies
  let uniqueAnomalies := deduplicateAnomalies allAnomalies
  let correlations := analyzeCorrelations repo uniqueAnomalies
  let insights := uniqueAnomalies.filterMap
    (fun anomaly => generateInsightForAnomaly anomaly correlations)
  scoreSortSlice insights uniqueAnomalies now

/-- `getBusinessInsights` of `insights.controller.ts` (lines 13-45): the
response envelope.  `success` is the literal `true`; the fire-and-forget
insight persistence (swallowed on failure) has no effect on the response and
is not modelled. -/
def getBusinessInsights (repo : Repo) (now : Int) : InsightsResponse :=
  let insights := generateBusinessInsights repo now
  { success := true
    timestamp := now
    cachedUntil := now + 15 * 60 * 1000
    insights := insights }

/-! ## Basic facts about the statistics -/

/-- The population variance is non-negative. -/
theorem calculateVariance_nonneg (values : List ℚ) (mean : ℚ) :
    0 ≤ calculateVariance values mean := by
  unfold calculateVariance
  split
  · exact le_refl 0
  · apply div_nonneg
    · apply List.sum_nonneg
      intro x hx
      obtain ⟨v, _, rfl⟩ := List.mem_map.mp hx
      positivity
    · positivity

/-- The mean of a constant non-empty list is the constant. -/
theorem calculateMean_const (values : List ℚ) (m : ℚ) (hne : values ≠ [])
    (hall : ∀ x ∈ values, x = m) : calculateMean values = m := by
  unfold calculateMean
  have hlen : values.length ≠ 0 := by simpa [List.length_eq_zero] using hne
  rw [if_neg hlen]
  have hrep : values = List.replicate values.length m :=
    List.eq_replicate_of_mem hall
  rw [hrep]
  rw [List.sum_replicate, List.length_replicate, nsmul_eq_mul]
  exact mul_div_cancel_left₀ m (by exact_mod_cast hlen)

/-- The variance of a constant list about its value is `0`. -/
theorem calculateVariance_const (values : List ℚ) (m : ℚ)
    (hall : ∀ x ∈ values, x = m) : calculateVariance values m = 0 := by
  unfold calculateVariance
  split
  · rfl
  · have : (values.map (fun v => (v - m)^2)).sum = 0 := by
      apply List.sum_eq_zero
      intro x hx
      obtain ⟨v, hv, rfl⟩ := List.mem_map.mp hx
      rw [hall v hv]
      ring
    rw [this, zero_div]

/-- The executable anomaly test `anomalyFlag` is the source's
`|value − mean| > 2.5 · stdDev && mean > 0`, with the standard deviation the
real square root of the variance. -/
theorem anomalyFlag_iff_sqrt (m var v : ℚ) (hvar : 0 ≤ var) :
    anomalyFlag m var v = true ↔
      ((5/2 : ℝ) * Real.sqrt (var : ℝ) < |(v : ℝ) - (m : ℝ)| ∧ 0 < m) := by
  unfold anomalyFlag
  rw [Bool.and_eq_true, decide_eq_true_eq, decide_eq_true_eq]
  have hvar' : (0:ℝ) ≤ (var : ℝ) := by exact_mod_cast hvar
  have hs : (5/2 : ℝ) * Real.sqrt (var : ℝ) =
      Real.sqrt ((5/2 : ℝ)^2 * (var : ℝ)) := by
    rw [Real.sqrt_mul (by positivity) ((var : ℝ)),
      Real.sqrt_sq (by norm_num : (0:ℝ) ≤ 5/2)]
  constructor
  · rintro ⟨h1, h2⟩
    refine ⟨?_, h2⟩
    have h1' : ((5/2 : ℝ))^2 * (var : ℝ) < ((v : ℝ) - (m : ℝ))^2 := by
      calc ((5/2 : ℝ))^2 * (var : ℝ) = (((5/2)^2 * var : ℚ) : ℝ) := by push_cast; ring
        _ < (((v - m)^2 : ℚ) : ℝ) := by exact_mod_cast h1
        _ = ((v : ℝ) - (m : ℝ))^2 := by push_cast; ring
    rw [hs, ← Real.sqrt_sq_eq_abs]
    exact Real.sqrt_lt_sqrt (by positivity) h1'
  · rintro ⟨h1, h2⟩
    refine ⟨?_, h2⟩
    rw [hs, ← Real.sqrt_sq_eq_abs] at h1
    have h1' : ((5/2 : ℝ))^2 * (var : ℝ) < ((v : ℝ) - (m : ℝ))^2 :=
      (Real.sqrt_lt_sqrt_iff (by positivity)).mp h1
    have h1q : (((5/2)^2 * var : ℚ) : ℝ) < (((v - m)^2 : ℚ) : ℝ) := by
      calc (((5/2)^2 * var : ℚ) : ℝ) = ((5/2 : ℝ))^2 * (var : ℝ) := by push_cast; ring
        _ < ((v : ℝ) - (m : ℝ))^2 := h1'
        _ = (((v - m)^2 : ℚ) : ℝ) := by push_cast; ring
    exact_mod_cast h1q

/-! ## Membership characterization of the detectors -/

/-- Membership in a recent query. -/
theorem mem_coreRecent {ρ : Type} (rows : List ρ) (tsOf : ρ → Int)
    (rowMatch : ρ → Bool) (rs : Int) (x : ρ) :
    x ∈ coreRecent rows tsOf rowMatch rs ↔
      x ∈ rows ∧ rowMatch x = true ∧ rs ≤ tsOf x := by
  unfold coreRecent
  simp [List.mem_filter, and_assoc]

/-- What `detectCore` emits: exactly one record per recent row that passes
`anomalyFlag` against the baseline statistics, provided the baseline window
is non-empty. -/
theorem mem_detectCore {ρ : Type} (rows : List ρ) (tsOf : ρ → Int)
    (pageOf : ρ → String) (ctxOf : ρ → AnomalyContext) (f : ρ → ℚ)
    (rowMatch : ρ → Bool) (rs bs be : Int) (mt mn : String)
    (r : AnomalyDetectionResult) :
    r ∈ detectCore rows tsOf pageOf ctxOf f rowMatch rs bs be mt mn ↔
      (coreBaseline rows tsOf rowMatch bs be).length ≠ 0 ∧
      ∃ x, x ∈ coreRecent rows tsOf rowMatch rs ∧
        anomalyFlag (coreMean rows tsOf rowMatch f bs be)
          (coreVar rows tsOf rowMatch f bs be) (f x) = true ∧
        r = mkAnomaly pageOf ctxOf f (coreMean rows tsOf rowMatch f bs be)
              (coreVar rows tsOf rowMatch f bs be) mt mn x tsOf := by
  unfold detectCore
  split
  · next h => simp [h]
  · next h =>
    simp only [List.mem_filterMap]
    constructor
    · rintro ⟨x, hx, hsome⟩
      split at hsome
      · next hflag =>
        exact ⟨h, x, hx, hflag, ((Option.some.injEq _ _).mp hsome).symm⟩
      · simp at hsome
    · rintro ⟨-, x, hx, hflag, rfl⟩
      exact ⟨x, hx, by rw [if_pos hflag]⟩

/-! ## Deduplication lemmas -/

/-- The `seen` set after processing a list of anomalies. -/
def seenAfter : List AnomalyDetectionResult → List String → List String
  | [], seen => seen
  | a :: rest, seen =>
    if anomalyKey a ∈ seen then seenAfter rest seen
    else seenAfter rest (anomalyKey a :: seen)

theorem dedupGo_sublist (l : List AnomalyDetectionResult) (seen : List String) :
    (dedupGo l seen).Sublist l := by
  induction l generalizing seen with
  | nil => simp [dedupGo]
  | cons a t ih =>
    unfold dedupGo
    split
    · exact (ih seen).cons a
    · exact (ih _).cons₂ a

theorem dedupGo_keys_nodup_aux (l : List AnomalyDetectionResult) (seen : List String) :
    ((dedupGo l seen).map anomalyKey).Nodup ∧
      ∀ k ∈ (dedupGo l seen).map anomalyKey, k ∉ seen := by
  induction l generalizing seen with
  | nil => simp [dedupGo]
  | cons a t ih =>
    unfold dedupGo
    split
    · exact ih seen
    · next hnot =>
      obtain ⟨hnd, hfresh⟩ := ih (anomalyKey a :: seen)
      refine ⟨?_, ?_⟩
      · simp only [List.map_cons, List.nodup_cons]
        exact ⟨fun hmem => (hfresh _ hmem) (by simp), hnd⟩
      · intro k hk
        simp only [List.map_cons, List.mem_cons] at hk
        rcases hk with rfl | hk
        · exact hnot
        · intro hks
          exact hfresh k hk (by simp [hks])

theorem dedupGo_find? (l : List AnomalyDetectionResult) (seen : List String)
    (k : String) (hk : k ∉ seen) :
    (dedupGo l seen).find? (fun a => anomalyKey a == k) =
      l.find? (fun a => anomalyKey a == k) := by
  induction l generalizing seen with
  | nil => simp [dedupGo]
  | cons a t ih =>
    unfold dedupGo
    by_cases hmem : anomalyKey a ∈ seen
    · rw [if_pos hmem]
      have hne : ¬((fun x => anomalyKey x == k) a = true) := by
        simp only [beq_iff_eq]
        intro h
        exact hk (h ▸ hmem)
      have hstep : List.find? (fun x => anomalyKey x == k) (a :: t) =
          List.find? (fun x => anomalyKey x == k) t :=
        List.find?_cons_of_neg t hne
      rw [hstep]
      exact ih seen hk
    · rw [if_neg hmem]
      cases hcase : (anomalyKey a == k) with
      | true =>
        have h1 : List.find? (fun x => anomalyKey x == k)
            (a :: dedupGo t (anomalyKey a :: seen)) = some a :=
          List.find?_cons_of_pos _ hcase
        have h2 : List.find? (fun x => anomalyKey x == k) (a :: t) = some a :=
          List.find?_cons_of_pos _ hcase
        rw [h1, h2]
      | false =>
        have h1 : List.find? (fun x => anomalyKey x == k)
            (a :: dedupGo t (anomalyKey a :: seen)) =
            List.find? (fun x => anomalyKey x == k) (dedupGo t (anomalyKey a :: seen)) :=
          List.find?_cons_of_neg _ (by simp [hcase])
        have h2 : List.find? (fun x => anomalyKey x == k) (a :: t) =
            List.find? (fun x => anomalyKey x == k) t :=
          List.find?_cons_of_neg _ (by simp [hcase])
        rw [h1, h2]
        apply ih
        simp only [List.mem_cons]
        rintro (h | h)
        · rw [h] at hcase
          simp at hcase
        · exact hk h

theorem subset_seenAfter (l : List AnomalyDetectionResult) (seen : List String) :
    ∀ k ∈ seen, k ∈ seenAfter l seen := by
  induction l generalizing seen with
  | nil => intro k hk; exact hk
  | cons a t ih =>
    intro k hk
    unfold seenAfter
    by_cases h : anomalyKey a ∈ seen
    · rw [if_pos h]; exact ih seen k hk
    · rw [if_neg h]; exact ih _ k (by simp [hk])

theorem key_mem_seenAfter (l : List AnomalyDetectionResult) (seen : List String) :
    ∀ a ∈ l, anomalyKey a ∈ seenAfter l seen := by
  induction l generalizing seen with
  | nil => simp
  | cons b t ih =>
    intro a ha
    unfold seenAfter
    rcases List.mem_cons.mp ha with rfl | ha
    · by_cases h : anomalyKey a ∈ seen
      · rw [if_pos h]; exact subset_seenAfter t seen _ h
      · rw [if_neg h]; exact subset_seenAfter t _ _ (by simp)
    · by_cases h : anomalyKey b ∈ seen
      · rw [if_pos h]; exact ih seen a ha
      · rw [if_neg h]; exact ih _ a ha

theorem dedupGo_eq_nil_of_seen (l : List AnomalyDetectionResult)
    (seen : List String) (h : ∀ a ∈ l, anomalyKey a ∈ seen) :
    dedupGo l seen = [] := by
  induction l generalizing seen with
  | nil => rfl
  | cons a t ih =>
    unfold dedupGo
    rw [if_pos (h a (by simp))]
    exact ih seen (fun x hx => h x (by simp [hx]))

theorem dedupGo_cons (a : AnomalyDetectionResult) (t : List AnomalyDetectionResult)
    (seen : List String) :
    dedupGo (a :: t) seen =
      if anomalyKey a ∈ seen then dedupGo t seen
      else a :: dedupGo t (anomalyKey a :: seen) := rfl

theorem seenAfter_cons (a : AnomalyDetectionResult) (t : List AnomalyDetectionResult)
    (seen : List String) :
    seenAfter (a :: t) seen =
      if anomalyKey a ∈ seen then seenAfter t seen
      else seenAfter t (anomalyKey a :: seen) := rfl

theorem dedupGo_append (l1 l2 : List AnomalyDetectionResult) (seen : List String) :
    dedupGo (l1 ++ l2) seen =
      dedupGo l1 seen ++ dedupGo l2 (seenAfter l1 seen) := by
  induction l1 generalizing seen with
  | nil => simp [dedupGo, seenAfter]
  | cons a t ih =>
    rw [List.cons_append, dedupGo_cons, dedupGo_cons, seenAfter_cons]
    by_cases h : anomalyKey a ∈ seen
    · simp only [if_pos h]
      exact ih seen
    · simp only [if_neg h, List.cons_append]
      rw [ih]

/-! ## The flagging contract of the detectors -/

/-- The flagging contract of one detector invocation with output `out`,
baseline rows `B`, recent rows `R` and per-row metric value `val`:
(1) every emitted record comes from a recent row whose value satisfies
`|V − baselineMean| > 2.5 · baselineStdDev` with `baselineMean > 0`, and
carries `percentageChange = (V − baselineMean)/baselineMean · 100`;
(2) conversely (when the baseline window is non-empty) every recent row
whose value satisfies the test yields a record;
(3) nothing is emitted when `baselineMean ≤ 0`. -/
def DetectorSpec {ρ : Type} (out : List AnomalyDetectionResult) (B R : List ρ)
    (val : ρ → ℚ) (tsOf : ρ → Int) (ctxOf : ρ → AnomalyContext) : Prop :=
  (∀ r ∈ out,
    ((5/2 : ℝ) * calculateStdDev (B.map val) (calculateMean (B.map val)) <
        |(r.currentValue : ℝ) - (calculateMean (B.map val) : ℝ)| ∧
      0 < calculateMean (B.map val)) ∧
    r.percentageChange =
      (r.currentValue - calculateMean (B.map val)) / calculateMean (B.map val) * 100 ∧
    r.baselineMean = calculateMean (B.map val)) ∧
  (B ≠ [] → ∀ x ∈ R,
    (5/2 : ℝ) * calculateStdDev (B.map val) (calculateMean (B.map val)) <
        |(val x : ℝ) - (calculateMean (B.map val) : ℝ)| →
    0 < calculateMean (B.map val) →
    ∃ r ∈ out, r.currentValue = val x ∧ r.timestamp = tsOf x ∧ r.context = ctxOf x ∧
      r.percentageChange =
        (val x - calculateMean (B.map val)) / calculateMean (B.map val) * 100) ∧
  (calculateMean (B.map val) ≤ 0 → out = [])

/-- `detectCore` satisfies the flagging contract against its own baseline
and recent queries. -/
theorem detectCore_spec {ρ : Type} (rows : List ρ) (tsOf : ρ → Int)
    (pageOf : ρ → String) (ctxOf : ρ → AnomalyContext) (f : ρ → ℚ)
    (rowMatch : ρ → Bool) (rs bs be : Int) (mt mn : String) :
    DetectorSpec (detectCore rows tsOf pageOf ctxOf f rowMatch rs bs be mt mn)
      (coreBaseline rows tsOf rowMatch bs be)
      (coreRecent rows tsOf rowMatch rs) f tsOf ctxOf := by
  have hvar : 0 ≤ coreVar rows tsOf rowMatch f bs be := calculateVariance_nonneg _ _
  have hbridge := fun v => anomalyFlag_iff_sqrt (coreMean rows tsOf rowMatch f bs be)
    (coreVar rows tsOf rowMatch f bs be) v hvar
  refine ⟨?_, ?_, ?_⟩
  · intro r hr
    obtain ⟨hB, x, hx, hflag, rfl⟩ :=
      (mem_detectCore rows tsOf pageOf ctxOf f rowMatch rs bs be mt mn r).mp hr
    have h := (hbridge (f x)).mp hflag
    exact ⟨⟨h.1, h.2⟩, rfl, rfl⟩
  · intro hB x hx hsq hm
    have hflag := (hbridge (f x)).mpr ⟨hsq, hm⟩
    refine ⟨mkAnomaly pageOf ctxOf f (coreMean rows tsOf rowMatch f bs be)
      (coreVar rows tsOf rowMatch f bs be) mt mn x tsOf, ?_, rfl, rfl, rfl, rfl⟩
    exact (mem_detectCore rows tsOf pageOf ctxOf f rowMatch rs bs be mt mn _).mpr
      ⟨by simpa [List.length_eq_zero] using hB, x, hx, hflag, rfl⟩
  · intro hm
    rw [List.eq_nil_iff_forall_not_mem]
    intro r hr
    obtain ⟨hB, x, hx, hflag, rfl⟩ :=
      (mem_detectCore rows tsOf pageOf ctxOf f rowMatch rs bs be mt mn r).mp hr
    have hpos := ((hbridge (f x)).mp hflag).2
    have hmeq : coreMean rows tsOf rowMatch f bs be =
        calculateMean ((coreBaseline rows tsOf rowMatch bs be).map f) := rfl
    rw [hmeq] at hpos
    linarith

/-- Claim C1: for every page and metric with a non-empty baseline window, a
recent observation with value `V` is flagged iff
`|V − baselineMean| > 2.5 · baselineStdDev` and `baselineMean > 0`; the
emitted record carries `percentageChange = (V − baselineMean)/baselineMean ·
100`; and nothing is flagged when `baselineMean ≤ 0`.  Stated for the
user-actions and performance branches of `detectMetricAnomaly` (each with an
arbitrary metric accessor) and for `detectTrafficAnomalies`. -/
theorem C1_flag_iff_and_percentage (repo : Repo) (page : String)
    (rs bs be : Int) (mt mn : String) (f : UserActionsRow → ℚ)
    (g : PerformanceRow → ℚ) :
    DetectorSpec (detectMetricAnomalyUA repo page rs bs be mt mn f)
      (coreBaseline repo.userActionsHourly (·.timestamp) (uaMatch page) bs be)
      (coreRecent repo.userActionsHourly (·.timestamp) (uaMatch page) rs)
      f (·.timestamp) uaContext ∧
    DetectorSpec (detectMetricAnomalyPerf repo page rs bs be mt mn g)
      (coreBaseline repo.performanceHourly (·.timestamp) (perfMatch page) bs be)
      (coreRecent repo.performanceHourly (·.timestamp) (perfMatch page) rs)
      g (·.timestamp) perfContext ∧
    DetectorSpec (detectTrafficAnomalies repo page rs bs be)
      (coreBaseline repo.pageViewsHourly (·.timestamp) (pvMatch page) bs be)
      (coreRecent repo.pageViewsHourly (·.timestamp) (pvMatch page) rs)
      (·.viewCount) (·.timestamp) pvContext :=
  ⟨detectCore_spec repo.userActionsHourly (·.timestamp) (·.page) uaContext f
      (uaMatch page) rs bs be mt mn,
   detectCore_spec repo.performanceHourly (·.timestamp) (·.page) perfContext g
      (perfMatch page) rs bs be mt mn,
   detectCore_spec repo.pageViewsHourly (·.timestamp) (·.page) pvContext (·.viewCount)
      (pvMatch page) rs bs be "Traffic" "PageViews"⟩

/-- A concrete user-actions row (used by witnesses below). -/
def witnessRowUA (ts : Int) (sd br cr : ℚ) : UserActionsRow :=
  { timestamp := ts, page := "p", pageCategory := "cat", deviceType := "Mobile",
    referrer := "Google", region := "IN", avgSessionDuration := sd,
    bounceRate := br, conversionRate := cr, conversionCount := 1 }

/-- A repository whose only conversion-rate baseline value is negative, so
the baseline mean is not positive. -/
def c1Repo : Repo :=
  { pageViewsHourly := [], performanceHourly := [],
    userActionsHourly := [witnessRowUA 10 100 50 (-5)] }

/-- Witness for C1: with a baseline mean `≤ 0` nothing is flagged. -/
theorem C1_witness :
    calculateMean ((coreBaseline c1Repo.userActionsHourly (fun r => r.timestamp)
        (uaMatch "p") 0 90).map (fun r => r.conversionRate)) ≤ 0 ∧
    detectMetricAnomalyUA c1Repo "p" 90 0 90 "Conversion" "Conversion Rate"
      (fun r => r.conversionRate) = [] := by
  have h := (C1_flag_iff_and_percentage c1Repo "p" 90 0 90 "Conversion"
    "Conversion Rate" (fun r => r.conversionRate) (fun r => r.errorRate)).1
  unfold DetectorSpec at h
  have hmean : calculateMean ((coreBaseline c1Repo.userActionsHourly
      (fun r => r.timestamp) (uaMatch "p") 0 90).map (fun r => r.conversionRate)) ≤ 0 := by
    norm_num [coreBaseline, c1Repo, witnessRowUA, uaMatch, calculateMean, List.filter]
  exact ⟨hmean, h.2.2 hmean⟩

/-- The degenerate-baseline contract of one detector invocation with output
`out`, baseline rows `B`, recent rows `R` and per-row metric value `val`:
whenever the baseline window is non-empty and all its values equal one
positive constant `m`, the standard deviation is `0` (so the threshold
`2.5 · stdDev` degenerates to `0`) and every recent row whose value differs
from `m` at all is flagged, with the corresponding percentage change. -/
def ConstBaselineSpec {ρ : Type} (out : List AnomalyDetectionResult) (B R : List ρ)
    (val : ρ → ℚ) (tsOf : ρ → Int) : Prop :=
  ∀ m : ℚ, 0 < m → B ≠ [] → (∀ v ∈ B.map val, v = m) →
    calculateStdDev (B.map val) (calculateMean (B.map val)) = 0 ∧
    ∀ x ∈ R, val x ≠ m →
      ∃ r ∈ out, r.currentValue = val x ∧ r.timestamp = tsOf x ∧
        r.percentageChange = (val x - m) / m * 100

/-- `detectCore` satisfies the degenerate-baseline contract against its own
baseline and recent queries. -/
theorem detectCore_const_baseline {ρ : Type} (rows : List ρ) (tsOf : ρ → Int)
    (pageOf : ρ → String) (ctxOf : ρ → AnomalyContext) (f : ρ → ℚ)
    (rowMatch : ρ → Bool) (rs bs be : Int) (mt mn : String) :
    ConstBaselineSpec (detectCore rows tsOf pageOf ctxOf f rowMatch rs bs be mt mn)
      (coreBaseline rows tsOf rowMatch bs be)
      (coreRecent rows tsOf rowMatch rs) f tsOf := by
  intro m hm hne hconst
  have hBm : (coreBaseline rows tsOf rowMatch bs be).map f ≠ [] := by
    intro hc
    exact hne (List.map_eq_nil_iff.mp hc)
  have hmean : calculateMean ((coreBaseline rows tsOf rowMatch bs be).map f) = m :=
    calculateMean_const _ m hBm hconst
  have hvar : calculateVariance ((coreBaseline rows tsOf rowMatch bs be).map f)
      (calculateMean ((coreBaseline rows tsOf rowMatch bs be).map f)) = 0 := by
    rw [hmean]
    exact calculateVariance_const _ m hconst
  have hstd : calculateStdDev ((coreBaseline rows tsOf rowMatch bs be).map f)
      (calculateMean ((coreBaseline rows tsOf rowMatch bs be).map f)) = 0 := by
    unfold calculateStdDev
    rw [hvar]
    simp
  have hflagmean : coreMean rows tsOf rowMatch f bs be = m := hmean
  have hflagvar : coreVar rows tsOf rowMatch f bs be = 0 := hvar
  refine ⟨hstd, ?_⟩
  intro x hx hneq
  have hflag : anomalyFlag (coreMean rows tsOf rowMatch f bs be)
      (coreVar rows tsOf rowMatch f bs be) (f x) = true := by
    unfold anomalyFlag
    rw [hflagmean, hflagvar, Bool.and_eq_true, decide_eq_true_eq, decide_eq_true_eq]
    refine ⟨?_, hm⟩
    have hsub : f x - m ≠ 0 := sub_ne_zero.mpr hneq
    have hpos : 0 < (f x - m)^2 :=
      lt_of_le_of_ne (sq_nonneg _) (Ne.symm (pow_ne_zero 2 hsub))
    nlinarith
  refine ⟨mkAnomaly pageOf ctxOf f
    (coreMean rows tsOf rowMatch f bs be) (coreVar rows tsOf rowMatch f bs be)
    mt mn x tsOf, ?_, rfl, rfl, ?_⟩
  · exact (mem_detectCore rows tsOf pageOf ctxOf f rowMatch rs bs be mt mn _).mpr
      ⟨by simpa [List.length_eq_zero] using hne, x, hx, hflag, rfl⟩
  · show (f x - coreMean rows tsOf rowMatch f bs be) /
      coreMean rows tsOf rowMatch f bs be * 100 = (f x - m) / m * 100
    rw [hflagmean]

/-- Claim C10: for every page and metric whose baseline is one constant
positive value, the standard deviation (and with it the threshold
`2.5 · stdDev`) degenerates to `0` and every recent observation whose value
differs from the constant at all is flagged.  Stated, like C1, for the
user-actions and performance branches of `detectMetricAnomaly` (each with an
arbitrary metric accessor) and for `detectTrafficAnomalies`, covering all
six tracked metrics. -/
theorem C10_zero_stddev_all_flagged (repo : Repo) (page : String)
    (rs bs be : Int) (mt mn : String) (f : UserActionsRow → ℚ)
    (g : PerformanceRow → ℚ) :
    ConstBaselineSpec (detectMetricAnomalyUA repo page rs bs be mt mn f)
      (coreBaseline repo.userActionsHourly (·.timestamp) (uaMatch page) bs be)
      (coreRecent repo.userActionsHourly (·.timestamp) (uaMatch page) rs)
      f (·.timestamp) ∧
    ConstBaselineSpec (detectMetricAnomalyPerf repo page rs bs be mt mn g)
      (coreBaseline repo.performanceHourly (·.timestamp) (perfMatch page) bs be)
      (coreRecent repo.performanceHourly (·.timestamp) (perfMatch page) rs)
      g (·.timestamp) ∧
    ConstBaselineSpec (detectTrafficAnomalies repo page rs bs be)
      (coreBaseline repo.pageViewsHourly (·.timestamp) (pvMatch page) bs be)
      (coreRecent repo.pageViewsHourly (·.timestamp) (pvMatch page) rs)
      (·.viewCount) (·.timestamp) :=
  ⟨detectCore_const_baseline repo.userActionsHourly (·.timestamp) (·.page) uaContext f
      (uaMatch page) rs bs be mt mn,
   detectCore_const_baseline repo.performanceHourly (·.timestamp) (·.page) perfContext g
      (perfMatch page) rs bs be mt mn,
   detectCore_const_baseline repo.pageViewsHourly (·.timestamp) (·.page) pvContext
      (·.viewCount) (pvMatch page) rs bs be "Traffic" "PageViews"⟩

/-- A repository with a constant conversion-rate baseline of `5` and a
recent value `7`. -/
def c10Repo : Repo :=
  { pageViewsHourly := [], performanceHourly := [],
    userActionsHourly := [witnessRowUA 10 100 50 5, witnessRowUA 11 100 50 5,
      witnessRowUA 95 100 50 7] }

/-- A concrete performance row (used by the C10 witness's load-time part). -/
def witnessRowPerf (ts : Int) (lt er : ℚ) : PerformanceRow :=
  { timestamp := ts, page := "p", pageCategory := "cat", deviceType := "Mobile",
    region := "IN", avgLoadTime := lt, errorRate := er }

/-- A repository with a constant load-time baseline of `200` and a recent
value `500`. -/
def c10PerfRepo : Repo :=
  { pageViewsHourly := [], userActionsHourly := [],
    performanceHourly := [witnessRowPerf 10 200 1, witnessRowPerf 11 200 1,
      witnessRowPerf 95 500 1] }

/-- Witness for C10, exercising both the user-actions branch (conversion
rate, constant baseline 5, recent value 7) and the performance branch (load
time, constant baseline 200, recent value 500). -/
theorem C10_witness :
    (calculateStdDev ((coreBaseline c10Repo.userActionsHourly (fun r => r.timestamp)
        (uaMatch "p") 0 90).map (fun r => r.conversionRate))
      (calculateMean ((coreBaseline c10Repo.userActionsHourly (fun r => r.timestamp)
        (uaMatch "p") 0 90).map (fun r => r.conversionRate))) = 0 ∧
    ∃ r ∈ detectMetricAnomalyUA c10Repo "p" 90 0 90 "Conversion" "Conversion Rate"
        (fun r => r.conversionRate),
      r.currentValue = (7:ℚ) ∧ r.timestamp = (95:Int) ∧
      r.percentageChange = ((7:ℚ) - 5) / 5 * 100) ∧
    (calculateStdDev ((coreBaseline c10PerfRepo.performanceHourly (fun r => r.timestamp)
        (perfMatch "p") 0 90).map (fun r => r.avgLoadTime))
      (calculateMean ((coreBaseline c10PerfRepo.performanceHourly (fun r => r.timestamp)
        (perfMatch "p") 0 90).map (fun r => r.avgLoadTime))) = 0 ∧
    ∃ r ∈ detectMetricAnomalyPerf c10PerfRepo "p" 90 0 90 "Performance" "Load Time"
        (fun r => r.avgLoadTime),
      r.currentValue = (500:ℚ) ∧ r.timestamp = (95:Int) ∧
      r.percentageChange = ((500:ℚ) - 200) / 200 * 100) := by
  constructor
  · have h := (C10_zero_stddev_all_flagged c10Repo "p" 90 0 90 "Conversion"
      "Conversion Rate" (fun r => r.conversionRate) (fun r => r.errorRate)).1
    unfold ConstBaselineSpec at h
    obtain ⟨hstd, hall⟩ := h 5 (by norm_num) (by decide) (by decide)
    exact ⟨hstd, hall (witnessRowUA 95 100 50 7) (by decide)
      (by norm_num [witnessRowUA])⟩
  · have h := (C10_zero_stddev_all_flagged c10PerfRepo "p" 90 0 90 "Performance"
      "Load Time" (fun r => r.conversionRate) (fun r => r.avgLoadTime)).2.1
    unfold ConstBaselineSpec at h
    obtain ⟨hstd, hall⟩ := h 200 (by norm_num) (by decide) (by decide)
    exact ⟨hstd, hall (witnessRowPerf 95 500 1) (by decide)
      (by norm_num [witnessRowPerf])⟩

/-! ## Claim C7: the recent window -/

/-- Anything `detectCore` emits has a timestamp at or after `recentStart`
(there is no upper bound to prove: the recent query has none). -/
theorem detectCore_ts_lb {ρ : Type} (rows : List ρ) (tsOf : ρ → Int)
    (pageOf : ρ → String) (ctxOf : ρ → AnomalyContext) (f : ρ → ℚ)
    (rowMatch : ρ → Bool) (rs bs be : Int) (mt mn : String)
    (r : AnomalyDetectionResult)
    (hr : r ∈ detectCore rows tsOf pageOf ctxOf f rowMatch rs bs be mt mn) :
    rs ≤ r.timestamp := by
  obtain ⟨hB, x, hx, hflag, rfl⟩ :=
    (mem_detectCore rows tsOf pageOf ctxOf f rowMatch rs bs be mt mn r).mp hr
  exact ((mem_coreRecent rows tsOf rowMatch rs x).mp hx).2.2

/-- Claim C7 (amended): every observation flagged by either detection pass
has a timestamp at least `now − 6h`; the recent query has **no upper
bound**, so records at or after `now` are also compared and can be
flagged (see the counterexample). -/
theorem C7_recent_window_lower_bound_only (repo : Repo) (now : Int)
    (r : AnomalyDetectionResult)
    (hr : r ∈ detectAnomalies repo now ∨ r ∈ detectGranularAnomalies repo now) :
    now - 6 * hourMs ≤ r.timestamp := by
  rcases hr with hr | hr
  · unfold detectAnomalies at hr
    simp only [List.mem_flatMap] at hr
    obtain ⟨page, _, hmem⟩ := hr
    unfold detectEngagementAnomalies detectPerformanceAnomalies
      detectTrafficAnomalies detectMetricAnomalyUA detectMetricAnomalyPerf at hmem
    simp only [List.mem_append, or_assoc] at hmem
    rcases hmem with h | h | h | h | h | h
    all_goals exact detectCore_ts_lb _ _ _ _ _ _ _ _ _ _ _ _ h
  · unfold detectGranularAnomalies detectTrafficAnomaliesGranular
      detectEngagementAnomaliesGranular detectPerformanceAnomaliesGranular at hr
    simp only [List.mem_flatMap, List.append_nil] at hr
    obtain ⟨combo, _, h⟩ := hr
    exact detectCore_ts_lb _ _ _ _ _ _ _ _ _ _ _ _ h

/-- A concrete page-views row. -/
def pvRow (ts : Int) (v : ℚ) : PageViewsRow :=
  { timestamp := ts, page := "p", pageCategory := "cat", deviceType := "Desktop",
    referrer := "Google", region := "IN", viewCount := v }

/-- A repository holding one baseline row (hour 80, 10 views) and one row
one hour *in the future* of the invocation time `now = hour 100`
(hour 101, 20 views). -/
def c7Repo : Repo :=
  { pageViewsHourly := [pvRow (80 * hourMs) 10, pvRow (101 * hourMs) 20],
    userActionsHourly := [], performanceHourly := [] }

/-- The anomaly record the detector emits for the future-timestamped row. -/
def c7Out : AnomalyDetectionResult :=
  { page := "p", metricType := "Traffic", metric := "PageViews",
    currentValue := 20, baselineMean := 10, baselineVariance := 0,
    percentageChange := 100, timestamp := 101 * hourMs,
    context := { deviceType := some "Desktop", region := some "IN",
                 referrer := some "Google", pageCategory := some "cat" } }

/-- Evaluation of the page-aggregate pass on `c7Repo` at `now = hour 100`. -/
theorem c7Repo_eval : detectAnomalies c7Repo (100 * hourMs) = [c7Out] := by
  norm_num [detectAnomalies, getUniquePages, dedupKeep, c7Repo, pvRow, hourMs,
    detectTrafficAnomalies, detectEngagementAnomalies, detectPerformanceAnomalies,
    detectMetricAnomalyUA, detectMetricAnomalyPerf, detectCore, coreBaseline,
    coreRecent, coreMean, coreVar, calculateMean, calculateVariance, anomalyFlag,
    mkAnomaly, pvContext, pvMatch, uaMatch, perfMatch, List.filter, List.filterMap,
    c7Out]

/-- Claim C7 as stated is false: with `now = hour 100`, the record at hour
101 — at/after `now`, outside `[now − 6h, now)` — is compared and flagged. -/
theorem C7_counterexample :
    detectAnomalies c7Repo (100 * hourMs) = [c7Out] ∧
    (100 * hourMs : Int) ≤ c7Out.timestamp :=
  ⟨c7Repo_eval, by norm_num [c7Out, hourMs]⟩

/-- Witness for the amended C7 at the concrete repository `c7Repo`. -/
theorem C7_witness :
    (c7Out ∈ detectAnomalies c7Repo (100 * hourMs) ∨
      c7Out ∈ detectGranularAnomalies c7Repo (100 * hourMs)) ∧
    (100 * hourMs : Int) - 6 * hourMs ≤ c7Out.timestamp :=
  have hm : c7Out ∈ detectAnomalies c7Repo (100 * hourMs) := by
    rw [c7Repo_eval]
    exact List.mem_singleton.mpr rfl
  ⟨Or.inl hm,
    C7_recent_window_lower_bound_only c7Repo (100 * hourMs) c7Out (Or.inl hm)⟩

/-! ## Claim C8: granular detection -/

/-- A page-only combination constrains nothing beyond the page. -/
theorem comboMatchesPV_pageOnly (p : String) :
    comboMatchesPV { page := p, deviceType := none, referrer := none, region := none } =
      pvMatch p := by
  funext r
  simp [comboMatchesPV, pvMatch]

/-- Claim C8 (amended): the granular pass enumerates page-only combinations
and only its traffic sub-pass does anything (the engagement and performance
sub-passes are stubs returning `[]`), so its output is exactly the
page-aggregate traffic pass re-run per page. -/
theorem C8_granular_is_page_level_traffic_only (repo : Repo) (now : Int) :
    detectGranularAnomalies repo now =
      (getUniquePages repo).flatMap (fun page =>
        detectTrafficAnomalies repo page (now - 6 * hourMs) (now - 30 * hourMs)
          (now - 6 * hourMs)) := by
  unfold detectGranularAnomalies getUniqueCombinations
  generalize getUniquePages repo = pages
  induction pages with
  | nil => rfl
  | cons p t ih =>
    simp only [List.map_cons, List.flatMap_cons,
      detectEngagementAnomaliesGranular, detectPerformanceAnomaliesGranular,
      List.append_nil] at ih ⊢
    rw [ih]
    unfold detectTrafficAnomaliesGranular detectTrafficAnomalies
    rw [comboMatchesPV_pageOnly]

/-- Modelled from the spec (§4.2 "granular detection", absent from the
source, whose granular engagement/performance passes are stubs): running
the *same* detection procedure with the row filter constrained to a
fully-specified page × device × referrer × region combination — here its
bounce-rate instance on the user-actions table. -/
def specGranularBounceForCombo (repo : Repo) (combo : Combo)
    (recentStart baselineStart baselineEnd : Int) : List AnomalyDetectionResult :=
  detectCore repo.userActionsHourly (·.timestamp) (·.page) uaContext (·.bounceRate)
    (fun r => r.page == combo.page &&
      (match combo.deviceType with | some d => r.deviceType == d | none => true) &&
      (match combo.referrer with | some rf => r.referrer == rf | none => true) &&
      (match combo.region with | some rg => r.region == rg | none => true))
    recentStart baselineStart baselineEnd "Engagement" "Bounce Rate"

/-- A repository whose only anomaly is a bounce-rate spike confined to the
(p, Mobile, Google, IN) combination: bounce rate 50 in both baseline hours,
80 in the recent hour. -/
def c8Repo : Repo :=
  { pageViewsHourly := [pvRow (80 * hourMs) 10],
    userActionsHourly := [witnessRowUA (80 * hourMs) 100 50 3,
      witnessRowUA (81 * hourMs) 100 50 3, witnessRowUA (95 * hourMs) 100 80 3],
    performanceHourly := [] }

/-- The bounce-rate anomaly record for `c8Repo`. -/
def c8Out : AnomalyDetectionResult :=
  { page := "p", metricType := "Engagement", metric := "Bounce Rate",
    currentValue := 80, baselineMean := 50, baselineVariance := 0,
    percentageChange := 60, timestamp := 95 * hourMs,
    context := { deviceType := some "Mobile", region := some "IN",
                 referrer := some "Google", pageCategory := some "cat" } }

/-- Claim C8 as stated is false: on `c8Repo` at `now = hour 100`, running
the same procedure on the fully-specified combination flags the bounce-rate
anomaly, but the source's granular pass returns nothing (its combinations
are page-only and its non-traffic sub-passes are stubs). -/
theorem C8_counterexample :
    specGranularBounceForCombo c8Repo
        { page := "p", deviceType := some "Mobile", referrer := some "Google",
          region := some "IN" }
        (100 * hourMs - 6 * hourMs) (100 * hourMs - 30 * hourMs)
        (100 * hourMs - 6 * hourMs) = [c8Out] ∧
    detectGranularAnomalies c8Repo (100 * hourMs) = [] ∧
    getUniqueCombinations c8Repo =
      [{ page := "p", deviceType := none, referrer := none, region := none }] := by
  refine ⟨?_, ?_, ?_⟩
  · norm_num [specGranularBounceForCombo, c8Repo, witnessRowUA, hourMs, detectCore,
      coreBaseline, coreRecent, coreMean, coreVar, calculateMean, calculateVariance,
      anomalyFlag, mkAnomaly, uaContext, List.filter, List.filterMap, c8Out]
  · norm_num [detectGranularAnomalies, getUniqueCombinations, getUniquePages,
      dedupKeep, c8Repo, pvRow, witnessRowUA, hourMs, detectTrafficAnomaliesGranular,
      detectEngagementAnomaliesGranular, detectPerformanceAnomaliesGranular,
      detectCore, coreBaseline, coreRecent, coreMean, coreVar, calculateMean,
      calculateVariance, anomalyFlag, mkAnomaly, pvContext, comboMatchesPV,
      List.filter, List.filterMap]
  · norm_num [getUniqueCombinations, getUniquePages, dedupKeep, c8Repo, pvRow]

/-! ## Claim C4: deduplication -/

/-- An anomaly with page `"a-b"` and metric `"c"`. -/
def c4AnomalyA : AnomalyDetectionResult :=
  { page := "a-b", metricType := "Traffic", metric := "c", currentValue := 1,
    baselineMean := 1, baselineVariance := 0, percentageChange := 0,
    timestamp := 0, context := ⟨none, none, none, none⟩ }

/-- An anomaly with page `"a"` and metric `"b-c"`: a different
(page, metric, timestamp) tuple, but the same dash-joined key `"a-b-c-0"`. -/
def c4AnomalyB : AnomalyDetectionResult :=
  { page := "a", metricType := "Traffic", metric := "b-c", currentValue := 2,
    baselineMean := 1, baselineVariance := 0, percentageChange := 0,
    timestamp := 0, context := ⟨none, none, none, none⟩ }

/-- Claim C4 as stated is false: deduplication keys by the *string*
`page + "-" + metric + "-" + epoch`, which conflates distinct
(page, metric, timestamp) tuples whose dash-joined renderings collide; the
second anomaly below is dropped although its tuple never occurred before. -/
theorem C4_counterexample :
    (c4AnomalyA.page, c4AnomalyA.metric, c4AnomalyA.timestamp) ≠
      (c4AnomalyB.page, c4AnomalyB.metric, c4AnomalyB.timestamp) ∧
    anomalyKey c4AnomalyA = anomalyKey c4AnomalyB ∧
    deduplicateAnomalies [c4AnomalyA, c4AnomalyB] = [c4AnomalyA] := by
  refine ⟨by decide, by decide, ?_⟩
  decide

/-- Claim C4 (amended): deduplication keys anomalies by the dash-joined
string `page-metric-epoch` with the first occurrence winning — the output
is a subsequence of the input with pairwise-distinct keys that preserves,
for every key, the first input record carrying it — and it is idempotent:
deduplicating `L ++ L` gives exactly the deduplication of `L`. -/
theorem C4_dedup_first_wins_and_idempotent :
    (∀ L : List AnomalyDetectionResult,
      deduplicateAnomalies (L ++ L) = deduplicateAnomalies L) ∧
    (∀ L : List AnomalyDetectionResult, (deduplicateAnomalies L).Sublist L) ∧
    (∀ L : List AnomalyDetectionResult,
      ((deduplicateAnomalies L).map anomalyKey).Nodup) ∧
    (∀ (L : List AnomalyDetectionResult) (k : String),
      (deduplicateAnomalies L).find? (fun a => anomalyKey a == k) =
        L.find? (fun a => anomalyKey a == k)) := by
  refine ⟨?_, ?_, ?_, ?_⟩
  · intro L
    unfold deduplicateAnomalies
    rw [dedupGo_append,
      dedupGo_eq_nil_of_seen L (seenAfter L []) (key_mem_seenAfter L []),
      List.append_nil]
  · intro L
    exact dedupGo_sublist L []
  · intro L
    exact (dedupGo_keys_nodup_aux L []).1
  · intro L k
    exact dedupGo_find? L [] k (List.not_mem_nil k)

/-! ## Claim C3: ranking -/

/-- Claim C3: the ranked output is sorted by impact score descending, has at
most 5 entries and never more than the scored-insight list it came from;
with fewer than 5 insights it is a permutation of all of them (scored), and
with none it is empty. -/
theorem C3_ranking_sorted_top5 (insights : List BusinessInsight)
    (anomalies : List AnomalyDetectionResult) (now : Int) :
    (scoreSortSlice insights anomalies now).Sorted scoreGE ∧
    (scoreSortSlice insights anomalies now).length ≤ 5 ∧
    (scoreSortSlice insights anomalies now).length ≤ insights.length ∧
    (insights.length < 5 →
      (scoreSortSlice insights anomalies now).Perm
        (insights.map (fun insight =>
          { insight with impactScore := calculateImpactScore insight anomalies now }))) ∧
    (insights = [] → scoreSortSlice insights anomalies now = []) := by
  have hsorted := List.sorted_insertionSort scoreGE (insights.map (fun insight =>
    { insight with impactScore := calculateImpactScore insight anomalies now }))
  have hperm := List.perm_insertionSort scoreGE (insights.map (fun insight =>
    { insight with impactScore := calculateImpactScore insight anomalies now }))
  refine ⟨?_, ?_, ?_, ?_, ?_⟩
  · exact List.Pairwise.sublist (List.take_sublist 5 _) hsorted
  · rw [scoreSortSlice, List.length_take]
    exact min_le_left _ _
  · rw [scoreSortSlice, List.length_take]
    calc min 5 (List.insertionSort scoreGE _).length ≤ _ := min_le_right _ _
      _ = (insights.map (fun insight =>
          { insight with impactScore := calculateImpactScore insight anomalies now })).length :=
        hperm.length_eq
      _ = insights.length := List.length_map _ _
  · intro hlt
    rw [scoreSortSlice, List.take_of_length_le (by rw [hperm.length_eq, List.length_map]; omega)]
    exact hperm
  · intro h
    subst h
    rfl

/-- Witness for C3 at the empty insight list. -/
theorem C3_witness :
    ([] : List BusinessInsight).length < 5 ∧ scoreSortSlice [] [] 0 = [] :=
  ⟨by decide, (C3_ranking_sorted_top5 [] [] 0).2.2.2.2 rfl⟩

/-! ## Claim C9: no anomalies -/

/-- Claim C9: when detection finds no anomalies at all,
`generateBusinessInsights` returns the empty list without failing and the
controller response still carries `success = true`. -/
theorem C9_no_anomalies_empty_success (repo : Repo) (now : Int)
    (h1 : detectAnomalies repo now = [])
    (h2 : detectGranularAnomalies repo now = []) :
    generateBusinessInsights repo now = [] ∧
    (getBusinessInsights repo now).success = true := by
  have hg : generateBusinessInsights repo now = [] := by
    unfold generateBusinessInsights
    rw [h1, h2]
    rfl
  exact ⟨hg, rfl⟩

/-- The empty repository. -/
def emptyRepo : Repo :=
  { pageViewsHourly := [], userActionsHourly := [], performanceHourly := [] }

/-- Witness for C9 at the empty repository. -/
theorem C9_witness :
    generateBusinessInsights emptyRepo 0 = [] ∧
    (getBusinessInsights emptyRepo 0).success = true :=
  C9_no_anomalies_empty_success emptyRepo 0 rfl rfl

/-! ## Claims C2 and C6: impact scoring -/

/-- The scenario anomaly of the spec's scoring example: percentage change
`340`, detected at epoch `0`. -/
def scenarioAnomaly : AnomalyDetectionResult :=
  { page := "/packages", metricType := "Traffic", metric := "PageViews",
    currentValue := 440, baselineMean := 100, baselineVariance := 0,
    percentageChange := 340, timestamp := 0,
    context := ⟨none, none, none, none⟩ }

/-- The matching "Traffic Surge" insight, scored 3 hours after detection. -/
def scenarioInsight : BusinessInsight :=
  { type := "Traffic Surge", metric := "PageViews", page := "/packages",
    change := "+340%", businessInsight := "", suggestedAction := "",
    impactScore := 0, detectedAt := 0, context := {} }

/-- Claim C2: with a matching anomaly, the impact score is
`round(0.3·magnitude + 0.4·criticality + 0.3·recency)` with
`magnitude = min(|pct|/5, 100)`, criticality 90/70/60/50 by substring tests
on the insight type, and `recency = max(0, 100 − hours·10)`; the scenario
(pct = 340, type "Traffic Surge", scored 3 hours after detection) scores 65. -/
theorem C2_impact_score_formula :
    (∀ (insight : BusinessInsight) (anomalies : List AnomalyDetectionResult)
        (now : Int) (a : AnomalyDetectionResult),
      anomalies.find? (fun x =>
          x.page == insight.page && x.timestamp == insight.detectedAt) = some a →
      calculateImpactScore insight anomalies now =
        round ((3/10 : ℚ) * min (|a.percentageChange| / 5) 100 +
          (4/10 : ℚ) * (if strIncludes insight.type "Conversion" = true ∨
                strIncludes insight.type "Error" = true then (90:ℚ)
              else if strIncludes insight.type "Performance" = true ∨
                strIncludes insight.type "Engagement" = true then 70
              else if strIncludes insight.type "Traffic" = true then 60
              else 50) +
          (3/10 : ℚ) * max 0 (100 - ((now - insight.detectedAt : Int) : ℚ) /
            ((1000 * 60 * 60 : Int) : ℚ) * 10))) ∧
    calculateImpactScore scenarioInsight [scenarioAnomaly] (3 * hourMs) = 65 := by
  constructor
  · intro insight anomalies now a hfind
    unfold calculateImpactScore
    rw [hfind]
    simp only [Bool.or_eq_true]
    congr 1
    ring
  · have hfind : [scenarioAnomaly].find? (fun x =>
        x.page == scenarioInsight.page && x.timestamp == scenarioInsight.detectedAt) =
        some scenarioAnomaly := by decide
    have e1 : strIncludes "Traffic Surge" "Conversion" = false := by decide
    have e2 : strIncludes "Traffic Surge" "Error" = false := by decide
    have e3 : strIncludes "Traffic Surge" "Performance" = false := by decide
    have e4 : strIncludes "Traffic Surge" "Engagement" = false := by decide
    have e5 : strIncludes "Traffic Surge" "Traffic" = true := by decide
    unfold calculateImpactScore
    rw [hfind]
    have habs : |(340:ℚ)| = 340 := by norm_num
    have hmin : min ((340:ℚ)/5) 100 = 68 := by norm_num [min_def]
    have hmax : max (0:ℚ) (100 - ((3 * hourMs - 0 : Int) : ℚ) /
        ((1000 * 60 * 60 : Int) : ℚ) * 10) = 70 := by
      norm_num [max_def, hourMs]
    simp only [scenarioInsight, scenarioAnomaly, e1, e2, e3, e4, e5, habs,
      Bool.or_false, Bool.false_or, hmin, hmax]
    norm_num [round_eq, Int.floor_eq_iff]

/-- Witness for C2: the general formula applied at the scenario input. -/
theorem C2_witness :
    calculateImpactScore scenarioInsight [scenarioAnomaly] (3 * hourMs) =
      round ((3/10 : ℚ) * min (|scenarioAnomaly.percentageChange| / 5) 100 +
        (4/10 : ℚ) * (if strIncludes scenarioInsight.type "Conversion" = true ∨
              strIncludes scenarioInsight.type "Error" = true then (90:ℚ)
            else if strIncludes scenarioInsight.type "Performance" = true ∨
              strIncludes scenarioInsight.type "Engagement" = true then 70
            else if strIncludes scenarioInsight.type "Traffic" = true then 60
            else 50) +
        (3/10 : ℚ) * max 0 (100 - ((3 * hourMs - scenarioInsight.detectedAt : Int) : ℚ) /
          ((1000 * 60 * 60 : Int) : ℚ) * 10)) :=
  C2_impact_score_formula.1 scenarioInsight [scenarioAnomaly] (3 * hourMs)
    scenarioAnomaly (by decide)

/-- Rounding keeps values of `[0, 100]` inside `[0, 100]`. -/
theorem round_bounds (q : ℚ) (h0 : 0 ≤ q) (h1 : q ≤ 100) :
    0 ≤ round q ∧ round q ≤ 100 := by
  rw [round_eq]
  constructor
  · exact Int.le_floor.mpr (by push_cast; linarith)
  · exact Int.floor_le_iff.mpr (by push_cast; linarith)

/-- The criticality if-chain only takes the values 90, 70, 60, 50. -/
theorem crit_bounds (b1 b2 b3 : Bool) :
    (0:ℚ) ≤ (if b1 then (90:ℚ) else if b2 then 70 else if b3 then 60 else 50) ∧
    (if b1 then (90:ℚ) else if b2 then 70 else if b3 then 60 else 50) ≤ 100 := by
  cases b1 <;> cases b2 <;> cases b3 <;> norm_num

/-- Claim C6: for every insight, anomaly list and non-negative scoring age,
the impact score is an integer in the closed interval [0, 100]. -/
theorem C6_impact_score_in_range (insight : BusinessInsight)
    (anomalies : List AnomalyDetectionResult) (now : Int)
    (h : insight.detectedAt ≤ now) :
    0 ≤ calculateImpactScore insight anomalies now ∧
      calculateImpactScore insight anomalies now ≤ 100 := by
  unfold calculateImpactScore
  cases hfind : anomalies.find? (fun a =>
      a.page == insight.page && a.timestamp == insight.detectedAt) with
  | none => norm_num
  | some anomaly =>
    have hmag0 : (0:ℚ) ≤ min (|anomaly.percentageChange| / 5) 100 :=
      le_min (by positivity) (by norm_num)
    have hmag100 : min (|anomaly.percentageChange| / 5) 100 ≤ 100 := min_le_right _ _
    obtain ⟨hc0, hc100⟩ := crit_bounds
      (strIncludes insight.type "Conversion" || strIncludes insight.type "Error")
      (strIncludes insight.type "Performance" || strIncludes insight.type "Engagement")
      (strIncludes insight.type "Traffic")
    have hha : (0:ℚ) ≤ ((now - insight.detectedAt : Int) : ℚ) /
        ((1000 * 60 * 60 : Int) : ℚ) := by
      apply div_nonneg
      · exact_mod_cast sub_nonneg.mpr h
      · norm_num
    have hrec0 : (0:ℚ) ≤ max 0 (100 - ((now - insight.detectedAt : Int) : ℚ) /
        ((1000 * 60 * 60 : Int) : ℚ) * 10) := le_max_left _ _
    have hrec100 : max 0 (100 - ((now - insight.detectedAt : Int) : ℚ) /
        ((1000 * 60 * 60 : Int) : ℚ) * 10) ≤ 100 := by
      apply max_le (by norm_num)
      nlinarith
    apply round_bounds
    · have t1 := mul_nonneg hmag0 (by norm_num : (0:ℚ) ≤ 3/10)
      have t2 := mul_nonneg hc0 (by norm_num : (0:ℚ) ≤ 4/10)
      have t3 := mul_nonneg hrec0 (by norm_num : (0:ℚ) ≤ 3/10)
      linarith
    · have t1 := mul_le_mul_of_nonneg_right hmag100 (by norm_num : (0:ℚ) ≤ 3/10)
      have t2 := mul_le_mul_of_nonneg_right hc100 (by norm_num : (0:ℚ) ≤ 4/10)
      have t3 := mul_le_mul_of_nonneg_right hrec100 (by norm_num : (0:ℚ) ≤ 3/10)
      linarith

/-- Witness for C6 at a concrete insight scored 5 ms after detection. -/
theorem C6_witness :
    scenarioInsight.detectedAt ≤ (5:Int) ∧
    (0 ≤ calculateImpactScore scenarioInsight [] 5 ∧
      calculateImpactScore scenarioInsight [] 5 ≤ 100) :=
  ⟨by decide, C6_impact_score_in_range scenarioInsight [] 5 (by decide)⟩

/-! ## Claim C5: correlation analysis -/

/-- The conversion-rate / bounce-rate baseline window of the correlation
lookups: the page's user-actions rows in `[ts − 30h, ts − 6h)`. -/
def correlationBaselineWindow (repo : Repo) (page : String) (ts : Int) :
    List UserActionsRow :=
  repo.userActionsHourly.filter (fun r =>
    r.page == page && decide (ts - 30 * hourMs ≤ r.timestamp) &&
    decide (r.timestamp < ts - 6 * hourMs))

theorem trafficCorrFor_shape (repo : Repo) (a : AnomalyDetectionResult) :
    trafficCorrFor repo a = [] ∨
    ∃ e : CorrelatedMetric, trafficCorrFor repo a = [e] ∧
      e.correlation = "traffic_up_conversions_down" := by
  unfold trafficCorrFor
  by_cases hA : a.metricType = "Traffic" ∧ a.percentageChange > 0
  · rw [if_pos hA]
    cases hcd : getConversionDataForPage repo a.page a.timestamp with
    | none => exact Or.inl rfl
    | some cd =>
      dsimp only
      by_cases hlt : cd.conversionRate < cd.baselineRate * (9/10)
      · rw [if_pos hlt]
        exact Or.inr ⟨_, rfl, rfl⟩
      · rw [if_neg hlt]
        exact Or.inl rfl
  · rw [if_neg hA]
    exact Or.inl rfl

theorem bounceCorrFor_shape (repo : Repo) (a : AnomalyDetectionResult) :
    bounceCorrFor repo a = [] ∨
    ∃ e : CorrelatedMetric, bounceCorrFor repo a = [e] ∧
      e.correlation = "load_time_up_bounce_rate_up" := by
  unfold bounceCorrFor
  by_cases hA : a.metricType = "Performance" ∧ a.metric = "Load Time" ∧
      a.percentageChange > 0
  · rw [if_pos hA]
    cases hbd : getBounceRateForPage repo a.page a.timestamp with
    | none => exact Or.inl rfl
    | some bd =>
      dsimp only
      by_cases hgt : bd.bounceRate > bd.baselineBounceRate * (11/10)
      · rw [if_pos hgt]
        exact Or.inr ⟨_, rfl, rfl⟩
      · rw [if_neg hgt]
        exact Or.inl rfl
  · rw [if_neg hA]
    exact Or.inl rfl

theorem trafficCorrFor_ne_nil_iff (repo : Repo) (a : AnomalyDetectionResult) :
    trafficCorrFor repo a ≠ [] ↔
      a.metricType = "Traffic" ∧ 0 < a.percentageChange ∧
      ∃ cd, getConversionDataForPage repo a.page a.timestamp = some cd ∧
        cd.conversionRate < cd.baselineRate * (9/10) := by
  unfold trafficCorrFor
  by_cases hA : a.metricType = "Traffic" ∧ a.percentageChange > 0
  · rw [if_pos hA]
    cases hcd : getConversionDataForPage repo a.page a.timestamp with
    | none =>
      dsimp only
      simp [hA.1, hA.2]
    | some cd =>
      dsimp only
      by_cases hlt : cd.conversionRate < cd.baselineRate * (9/10)
      · rw [if_pos hlt]
        constructor
        · intro _
          exact ⟨hA.1, hA.2, cd, rfl, hlt⟩
        · intro _
          simp
      · rw [if_neg hlt]
        constructor
        · intro h
          exact absurd rfl h
        · rintro ⟨-, -, cd', hcd', hlt'⟩
          rw [Option.some.injEq] at hcd'
          exact absurd (hcd' ▸ hlt') hlt
  · rw [if_neg hA]
    constructor
    · intro h
      exact absurd rfl h
    · rintro ⟨h1, h2, -⟩
      exact absurd ⟨h1, h2⟩ hA

theorem bounceCorrFor_ne_nil_iff (repo : Repo) (a : AnomalyDetectionResult) :
    bounceCorrFor repo a ≠ [] ↔
      a.metricType = "Performance" ∧ a.metric = "Load Time" ∧
      0 < a.percentageChange ∧
      ∃ bd, getBounceRateForPage repo a.page a.timestamp = some bd ∧
        bd.baselineBounceRate * (11/10) < bd.bounceRate := by
  unfold bounceCorrFor
  by_cases hA : a.metricType = "Performance" ∧ a.metric = "Load Time" ∧
      a.percentageChange > 0
  · rw [if_pos hA]
    cases hbd : getBounceRateForPage repo a.page a.timestamp with
    | none =>
      dsimp only
      simp [hA.1, hA.2.1, hA.2.2]
    | some bd =>
      dsimp only
      by_cases hgt : bd.bounceRate > bd.baselineBounceRate * (11/10)
      · rw [if_pos hgt]
        constructor
        · intro _
          exact ⟨hA.1, hA.2.1, hA.2.2, bd, rfl, hgt⟩
        · intro _
          simp
      · rw [if_neg hgt]
        constructor
        · intro h
          exact absurd rfl h
        · rintro ⟨-, -, -, bd', hbd', hgt'⟩
          rw [Option.some.injEq] at hbd'
          exact absurd (hbd' ▸ hgt') hgt
  · rw [if_neg hA]
    constructor
    · intro h
      exact absurd rfl h
    · rintro ⟨h1, h2, h3, -⟩
      exact absurd ⟨h1, h2, h3⟩ hA

/-- The conversion baseline of the correlation lookup: the mean over the
`[ts − 30h, ts − 6h)` window, or the recent row's own value when that
window is empty. -/
theorem getConversionDataForPage_baseline (repo : Repo) (page : String)
    (ts : Int) (cd : ConversionData)
    (h : getConversionDataForPage repo page ts = some cd) :
    (correlationBaselineWindow repo page ts ≠ [] →
      cd.baselineRate =
        calculateMean ((correlationBaselineWindow repo page ts).map (·.conversionRate))) ∧
    (correlationBaselineWindow repo page ts = [] →
      cd.baselineRate = cd.conversionRate) := by
  simp only [getConversionDataForPage] at h
  cases hh : (repo.userActionsHourly.filter (fun r =>
      r.page == page && decide (hourFloor ts ≤ r.timestamp) &&
      decide (r.timestamp < hourFloor ts + hourMs))).head? with
  | none =>
    rw [hh] at h
    exact absurd h (by simp)
  | some recent =>
    rw [hh] at h
    dsimp only at h
    rw [Option.some.injEq] at h
    subst h
    have hwin : correlationBaselineWindow repo page ts =
        repo.userActionsHourly.filter (fun r =>
          r.page == page && decide (ts - 30 * hourMs ≤ r.timestamp) &&
          decide (r.timestamp < ts - 6 * hourMs)) := rfl
    constructor
    · intro hne
      rw [hwin] at hne
      have hlen : 0 < (repo.userActionsHourly.filter (fun r =>
          r.page == page && decide (ts - 30 * hourMs ≤ r.timestamp) &&
          decide (r.timestamp < ts - 6 * hourMs))).length :=
        List.length_pos.mpr hne
      dsimp only
      rw [if_pos hlen]
      unfold calculateMean
      rw [hwin, List.length_map, if_neg (Nat.pos_iff_ne_zero.mp hlen)]
    · intro hnil
      rw [hwin] at hnil
      dsimp only
      rw [hnil]
      simp

/-- Anomalies kept by `analyzeCorrelations` always carry at least one
correlated metric. -/
theorem analyzeCorrelations_nonempty (repo : Repo)
    (anomalies : List AnomalyDetectionResult) (c : CorrelationResult)
    (hc : c ∈ analyzeCorrelations repo anomalies) : c.correlatedMetrics ≠ [] := by
  unfold analyzeCorrelations at hc
  simp only [List.mem_filterMap] at hc
  obtain ⟨a, _, hsome⟩ := hc
  by_cases hlen : (correlatedMetricsFor repo a).length > 0
  · rw [if_pos hlen] at hsome
    rw [Option.some.injEq] at hsome
    subst hsome
    intro hnil
    dsimp only at hnil
    rw [hnil] at hlen
    simp at hlen
  · rw [if_neg hlen] at hsome
    exact absurd hsome (by simp)

/-- Anomalies with at least one correlated metric are kept by
`analyzeCorrelations`. -/
theorem analyzeCorrelations_complete (repo : Repo)
    (anomalies : List AnomalyDetectionResult) (a : AnomalyDetectionResult)
    (ha : a ∈ anomalies) (hne : correlatedMetricsFor repo a ≠ []) :
    ({ primaryAnomaly := a, correlatedMetrics := correlatedMetricsFor repo a } :
      CorrelationResult) ∈ analyzeCorrelations repo anomalies := by
  unfold analyzeCorrelations
  simp only [List.mem_filterMap]
  refine ⟨a, ha, ?_⟩
  rw [if_pos (List.length_pos.mpr hne)]

/-- Claim C5: a `traffic_up_conversions_down` correlated metric is recorded
exactly for Traffic increases whose page conversion rate for the anomaly's
hour bucket dropped below 0.9 × its own baseline; a
`load_time_up_bounce_rate_up` one exactly for Load Time increases whose
bounce rate exceeds 1.1 × its baseline; each baseline is the mean over the
`[ts − 30h, ts − 6h)` window, falling back to the single recent value when
that window is empty; anomalies with no correlated metric are omitted from
the correlation result set, and those with at least one are kept. -/
theorem C5_correlation_rules (repo : Repo) (a : AnomalyDetectionResult) :
    (("traffic_up_conversions_down" ∈
        (correlatedMetricsFor repo a).map (fun m => m.correlation)) ↔
      (a.metricType = "Traffic" ∧ 0 < a.percentageChange ∧
        ∃ cd, getConversionDataForPage repo a.page a.timestamp = some cd ∧
          cd.conversionRate < cd.baselineRate * (9/10))) ∧
    (("load_time_up_bounce_rate_up" ∈
        (correlatedMetricsFor repo a).map (fun m => m.correlation)) ↔
      (a.metricType = "Performance" ∧ a.metric = "Load Time" ∧
        0 < a.percentageChange ∧
        ∃ bd, getBounceRateForPage repo a.page a.timestamp = some bd ∧
          bd.baselineBounceRate * (11/10) < bd.bounceRate)) ∧
    (∀ (page : String) (ts : Int) (cd : ConversionData),
      getConversionDataForPage repo page ts = some cd →
      (correlationBaselineWindow repo page ts ≠ [] →
        cd.baselineRate = calculateMean
          ((correlationBaselineWindow repo page ts).map (fun r => r.conversionRate))) ∧
      (correlationBaselineWindow repo page ts = [] →
        cd.baselineRate = cd.conversionRate)) ∧
    (∀ (anomalies : List AnomalyDetectionResult) (c : CorrelationResult),
      c ∈ analyzeCorrelations repo anomalies → c.correlatedMetrics ≠ []) ∧
    (∀ anomalies : List AnomalyDetectionResult,
      a ∈ anomalies → correlatedMetricsFor repo a ≠ [] →
      ({ primaryAnomaly := a, correlatedMetrics := correlatedMetricsFor repo a } :
        CorrelationResult) ∈ analyzeCorrelations repo anomalies) := by
  refine ⟨?_, ?_,
    fun page ts cd h => getConversionDataForPage_baseline repo page ts cd h,
    fun anomalies c hc => analyzeCorrelations_nonempty repo anomalies c hc,
    fun anomalies ha hne => analyzeCorrelations_complete repo anomalies a ha hne⟩
  · rw [show correlatedMetricsFor repo a =
        trafficCorrFor repo a ++ bounceCorrFor repo a from rfl,
      List.map_append, List.mem_append, ← trafficCorrFor_ne_nil_iff]
    constructor
    · rintro (h | h)
      · intro hnil
        rw [hnil] at h
        simp at h
      · exfalso
        rcases bounceCorrFor_shape repo a with hs | ⟨e, he, hc⟩
        · rw [hs] at h
          simp at h
        · rw [he] at h
          simp only [List.map_cons, List.map_nil, List.mem_singleton] at h
          rw [hc] at h
          exact absurd h (by decide)
    · intro hne
      left
      rcases trafficCorrFor_shape repo a with hs | ⟨e, he, hc⟩
      · exact absurd hs hne
      · rw [he]
        simp [hc]
  · rw [show correlatedMetricsFor repo a =
        trafficCorrFor repo a ++ bounceCorrFor repo a from rfl,
      List.map_append, List.mem_append, ← bounceCorrFor_ne_nil_iff]
    constructor
    · rintro (h | h)
      · exfalso
        rcases trafficCorrFor_shape repo a with hs | ⟨e, he, hc⟩
        · rw [hs] at h
          simp at h
        · rw [he] at h
          simp only [List.map_cons, List.map_nil, List.mem_singleton] at h
          rw [hc] at h
          exact absurd h (by decide)
      · intro hnil
        rw [hnil] at h
        simp at h
    · intro hne
      right
      rcases bounceCorrFor_shape repo a with hs | ⟨e, he, hc⟩
      · exact absurd hs hne
      · rw [he]
        simp [hc]

/-- A repository with a conversion-rate drop in the hour of a traffic
anomaly: baseline conversion rate 2 (hour 70), recent conversion rate 1
(hour 95). -/
def c5Repo : Repo :=
  { pageViewsHourly := [], performanceHourly := [],
    userActionsHourly := [witnessRowUA (70 * hourMs) 100 50 2,
      witnessRowUA (95 * hourMs) 100 50 1] }

/-- A traffic-increase anomaly at hour 95 on the same page. -/
def c5Anom : AnomalyDetectionResult :=
  { page := "p", metricType := "Traffic", metric := "PageViews",
    currentValue := 0, baselineMean := 0, baselineVariance := 0,
    percentageChange := 50, timestamp := 95 * hourMs,
    context := ⟨none, none, none, none⟩ }

/-- Witness for C5: the concrete anomaly receives its
`traffic_up_conversions_down` correlation. -/
theorem C5_witness :
    "traffic_up_conversions_down" ∈
      (correlatedMetricsFor c5Repo c5Anom).map (fun m => m.correlation) :=
  (C5_correlation_rules c5Repo c5Anom).1.mpr
    ⟨rfl, by norm_num [c5Anom],
     { conversionRate := 1, baselineRate := 2 },
     by norm_num [getConversionDataForPage, c5Repo, c5Anom, witnessRowUA,
       hourFloor, hourMs, List.filter],
     by norm_num⟩
